import Mathlib

/-!
Verification development for the dappier-skyfire-api repository.

The definitions below are a shallow embedding, in Lean 4, of the pure
computational content of the repository's Python source:

* a model of Python's `json` module (values, `json.dumps` with and without
  `indent=2`, `json.loads`) sufficient for the embedded tools;
* a model of Python's `base64.urlsafe_b64decode` (non-strict mode, as used
  by `decode_jwt_tool`);
* `decode_jwt_tool` from `agents/jwt_decoder_agent.py`;
* `get_dappier_resources_pricing` and `_mask_token` from
  `agents/mcp_connector_agent.py`;
* `build_conversation_context` from `utils/helpers.py`;
* `SessionService.create_session` / `cleanup_expired_sessions` from
  `services/session_service.py`;
* `charge_token_tool` from `agents/skyfire_charge_token_agent.py`;
* the per-chunk wire-event translation of `stream_chat_response` from
  `routes/chat.py`.

Machine-level caveats of the model are documented on each definition.
-/

/-- Model of a Python JSON value (the result of `json.loads` / the argument
of `json.dumps`).  Python floats that come from JSON decimal literals are
kept symbolically: `fnum neg ip frac e` is the literal
`[-] ip . frac [e exp]` (sign, integer part, fraction digits, optional
exponent); the code under verification never does arithmetic on them, so
a symbolic representation is faithful.  Object fields are an ordered
association list, mirroring Python dict insertion order. -/
inductive Json where
  | null : Json
  | bool (b : Bool) : Json
  | num (n : Int) : Json
  | fnum (neg : Bool) (ip : Nat) (frac : List Char) (e : Option Int) : Json
  | str (s : String) : Json
  | arr (xs : List Json) : Json
  | obj (fields : List (String × Json)) : Json

/-- Look up a key in a JSON object (first occurrence); `none` on non-objects
or missing keys.  Models Python `d.get(k)` on a decoded object. -/
def Json.lookup (j : Json) (key : String) : Option Json :=
  match j with
  | .obj fields => fields.lookup key
  | _ => none

/-- Model of Python `d[k] = v` on a dict represented as an ordered
association list: if the key is present its value is replaced in place
(the position of the first binding is kept), otherwise the binding is
appended at the end. -/
def objSet (fields : List (String × Json)) (key : String) (v : Json) :
    List (String × Json) :=
  match fields with
  | [] => [(key, v)]
  | (k, w) :: rest =>
      if k = key then (k, v) :: rest else (k, w) :: objSet rest key v

/-- Hexadecimal digit (lowercase), for `\uXXXX` escapes. -/
def hexDigit (n : Nat) : Char :=
  if n < 10 then Char.ofNat (48 + n) else Char.ofNat (87 + n)

/-- Four-digit lowercase hex rendering of a code unit, as in `\uXXXX`. -/
def hex4 (n : Nat) : List Char :=
  [hexDigit (n / 4096 % 16), hexDigit (n / 256 % 16),
   hexDigit (n / 16 % 16), hexDigit (n % 16)]

/-- Escape one character the way Python `json.dumps` (default
`ensure_ascii=True`) does: the two mandatory escapes, the five short
control escapes, `\uXXXX` for the remaining control characters and for all
non-ASCII characters (astral code points become a surrogate pair). -/
def pyJsonEscapeChar (c : Char) : List Char :=
  if c = '"' then [ '\\', '"' ]
  else if c = '\\' then [ '\\', '\\' ]
  else if c = Char.ofNat 8 then [ '\\', 'b' ]
  else if c = Char.ofNat 12 then [ '\\', 'f' ]
  else if c = '\n' then [ '\\', 'n' ]
  else if c = Char.ofNat 13 then [ '\\', 'r' ]
  else if c = '\t' then [ '\\', 't' ]
  else if c.toNat < 32 then '\\' :: 'u' :: hex4 c.toNat
  else if c.toNat ≤ 126 then [c]
  else if c.toNat < 65536 then '\\' :: 'u' :: hex4 c.toNat
  else
    let v := c.toNat - 65536
    ('\\' :: 'u' :: hex4 (55296 + v / 1024)) ++ ('\\' :: 'u' :: hex4 (56320 + v % 1024))

/-- Python `json.dumps` rendering of a string, including the surrounding
double quotes. -/
def pyJsonQuote (s : String) : String :=
  "\"" ++ String.mk (s.toList.flatMap pyJsonEscapeChar) ++ "\""

/-- Rendering of the symbolic decimal literal `fnum`. -/
def fnumRender (neg : Bool) (ip : Nat) (frac : List Char) (e : Option Int) : String :=
  (if neg then "-" else "") ++ toString ip ++
    (if frac.isEmpty then "" else "." ++ String.mk frac) ++
    (match e with
     | none => ""
     | some ex => "e" ++ toString ex)

mutual

/-- Model of Python `json.dumps(v)` with the default separators
`(", ", ": ")` and no indentation. -/
def Json.dumps : Json → String
  | .null => "null"
  | .bool true => "true"
  | .bool false => "false"
  | .num n => toString n
  | .fnum neg ip frac e => fnumRender neg ip frac e
  | .str s => pyJsonQuote s
  | .arr xs => "[" ++ String.intercalate ", " (dumpsList xs) ++ "]"
  | .obj fields => "\x7b" ++ String.intercalate ", " (dumpsFields fields) ++ "\x7d"

/-- Renders each element of a JSON array (compact form). -/
def dumpsList : List Json → List String
  | [] => []
  | x :: xs => Json.dumps x :: dumpsList xs

/-- Renders each field of a JSON object (compact form). -/
def dumpsFields : List (String × Json) → List String
  | [] => []
  | (k, v) :: rest => (pyJsonQuote k ++ ": " ++ Json.dumps v) :: dumpsFields rest

end

/-- Indentation padding of `n` spaces. -/
def pad (n : Nat) : String :=
  String.mk (List.replicate n ' ')

mutual

/-- Model of Python `json.dumps(v, indent=2)` at nesting level `n`
(current indentation is `n` spaces; `indent=2` implies item separator
`","` + newline and key separator `": "`). -/
def Json.dumpsIndent : Nat → Json → String
  | _, .null => "null"
  | _, .bool true => "true"
  | _, .bool false => "false"
  | _, .num n => toString n
  | _, .fnum neg ip frac e => fnumRender neg ip frac e
  | _, .str s => pyJsonQuote s
  | _, .arr [] => "[]"
  | n, .arr (x :: xs) =>
      "[\n" ++ String.intercalate ",\n" (dumpsIndentList (n + 2) (x :: xs)) ++
        "\n" ++ pad n ++ "]"
  | _, .obj [] => "\x7b\x7d"
  | n, .obj (f :: fs) =>
      "\x7b\n" ++ String.intercalate ",\n" (dumpsIndentFields (n + 2) (f :: fs)) ++
        "\n" ++ pad n ++ "\x7d"

/-- Renders each element of a JSON array (indented form). -/
def dumpsIndentList : Nat → List Json → List String
  | _, [] => []
  | n, x :: xs => (pad n ++ Json.dumpsIndent n x) :: dumpsIndentList n xs

/-- Renders each field of a JSON object (indented form). -/
def dumpsIndentFields : Nat → List (String × Json) → List String
  | _, [] => []
  | n, (k, v) :: rest =>
      (pad n ++ pyJsonQuote k ++ ": " ++ Json.dumpsIndent n v) :: dumpsIndentFields n rest

end

/-- Model of Python `json.dumps(v, indent=2)`. -/
def Json.dumps2 (j : Json) : String :=
  Json.dumpsIndent 0 j

example : Json.dumps (.obj [("error", .str "x"), ("success", .bool false)]) =
    "\x7b\"error\": \"x\", \"success\": false\x7d" := by
  decide

example : Json.dumps2 (.obj [("h", .obj [("alg", .str "HS256")]),
    ("p", .arr [.fnum false 0 [ '1' ] none, .num 0])]) =
    "\x7b\n  \"h\": \x7b\n    \"alg\": \"HS256\"\n  \x7d,\n  \"p\": [\n    0.1,\n    0\n  ]\n\x7d" := by
  decide

/-- Value of a standard base64-alphabet character, `none` for everything
else (including padding). -/
def b64CharVal (c : Char) : Option Nat :=
  if 'A' ≤ c ∧ c ≤ 'Z' then some (c.toNat - 65)
  else if 'a' ≤ c ∧ c ≤ 'z' then some (c.toNat - 97 + 26)
  else if '0' ≤ c ∧ c ≤ '9' then some (c.toNat - 48 + 52)
  else if c = '+' then some 62
  else if c = '/' then some 63
  else none

/-- Character translation performed by Python `base64.urlsafe_b64decode`
before decoding: the URL-safe alternative characters are mapped back to
the standard alphabet. -/
def pyB64Translate (c : Char) : Char :=
  if c = '-' then '+' else if c = '_' then '/' else c

/-- Three bytes packed from a full quad of 6-bit values. -/
def b64Quad (a b c d : Nat) : List Nat :=
  [a * 4 + b / 16, b % 16 * 16 + c / 4, c % 4 * 64 + d]

/-- Bytes emitted for a quad terminated early by padding: two 6-bit values
give one byte, three give two bytes (CPython `binascii.a2b_base64`). -/
def b64Partial (buf : List Nat) : List Nat :=
  match buf with
  | [a, b] => [a * 4 + b / 16]
  | [a, b, c] => [a * 4 + b / 16, b % 16 * 16 + c / 4]
  | _ => []

/-- Core loop of CPython `binascii.a2b_base64` in non-strict mode, after
non-alphabet characters other than `=` have been discarded: alphabet
characters accumulate into quads (each data character resets the pending
pad count); a `=` increments the pad count, and the decode ends —
flushing the two or three pending values and ignoring all remaining
input — exactly when the pad run completes the quad
(`quad_pos >= 2 && quad_pos + pads >= 4` in `binascii.c`); any other `=`
is skipped.  At end of input, zero pending values succeed and any other
count is an error (Python raises `binascii.Error` — "Incorrect padding"
for 2 or 3 pending values, "number of data characters cannot be 1 more
than a multiple of 4" for 1).  The model also counts pads while fewer
than two values are pending, where CPython's short-circuit does not; the
count is reset by any data character before it could be read, so the two
behaviours coincide. -/
def a2bBase64 : List Char → List Nat → Nat → List Nat → Option (List Nat)
  | [], buf, _pads, acc => if buf.length = 0 then some acc else none
  | c :: rest, buf, pads, acc =>
      if c = '=' then
        if 2 ≤ buf.length ∧ 4 ≤ buf.length + (pads + 1) then some (acc ++ b64Partial buf)
        else a2bBase64 rest buf (pads + 1) acc
      else
        match b64CharVal c with
        | some v =>
            match buf with
            | [a, b, c3] => a2bBase64 rest [] 0 (acc ++ b64Quad a b c3 v)
            | _ => a2bBase64 rest (buf ++ [v]) 0 acc
        | none => a2bBase64 rest buf pads acc

/-- Model of Python `base64.urlsafe_b64decode(s)` (which calls `b64decode`
in non-strict mode with the URL-safe alternative alphabet): translate
`-`/`_`, discard every character outside the alphabet and `=`, then run
the accumulating decode loop.  Returns the decoded bytes, `none` where
Python raises `binascii.Error`. -/
def pyUrlsafeB64Decode (s : String) : Option (List Nat) :=
  a2bBase64
    ((s.toList.map pyB64Translate).filter (fun c => (b64CharVal c).isSome || c = '=')) [] 0 []

example : pyUrlsafeB64Decode "QUJD====" = some [65, 66, 67] := by decide
example : pyUrlsafeB64Decode "QQ==QQ==" = some [65] := by decide
example : pyUrlsafeB64Decode "QUJDQ" = none := by decide
example : pyUrlsafeB64Decode "QQ" = none := by decide
example : pyUrlsafeB64Decode "A===" = none := by decide
example : pyUrlsafeB64Decode "Q!Q==" = some [65] := by decide
example : pyUrlsafeB64Decode "ab-_" = some [105, 191, 191] := by decide
example : pyUrlsafeB64Decode "W1=0====" = some [91, 93] := by decide
example : pyUrlsafeB64Decode "QQ=" = none := by decide
example : pyUrlsafeB64Decode "QQ=A" = none := by decide
example : pyUrlsafeB64Decode "QUJ=" = some [65, 66] := by decide
example : pyUrlsafeB64Decode "QQ==A" = some [65] := by decide

/-- Continuation-byte test for UTF-8 decoding. -/
def utf8Cont (b : Nat) : Bool :=
  128 ≤ b && b < 192

/-- Strict UTF-8 decoder over byte values (the decoding Python performs
when `json.loads` receives `bytes`): rejects overlong encodings,
surrogates and out-of-range sequences per RFC 3629. -/
def utf8Decode : Nat → List Nat → Option (List Char)
  | _, [] => some []
  | 0, _ => none
  | f + 1, b :: rest =>
      if b < 128 then
        (utf8Decode f rest).map (fun cs => Char.ofNat b :: cs)
      else if 194 ≤ b && b ≤ 223 then
        match rest with
        | b2 :: r =>
            if utf8Cont b2 then
              (utf8Decode f r).map (fun cs => Char.ofNat ((b - 192) * 64 + (b2 - 128)) :: cs)
            else none
        | _ => none
      else if 224 ≤ b && b ≤ 239 then
        match rest with
        | b2 :: b3 :: r =>
            let okB2 :=
              if b = 224 then 160 ≤ b2 && b2 ≤ 191
              else if b = 237 then 128 ≤ b2 && b2 ≤ 159
              else utf8Cont b2
            if okB2 && utf8Cont b3 then
              (utf8Decode f r).map (fun cs =>
                Char.ofNat ((b - 224) * 4096 + (b2 - 128) * 64 + (b3 - 128)) :: cs)
            else none
        | _ => none
      else if 240 ≤ b && b ≤ 244 then
        match rest with
        | b2 :: b3 :: b4 :: r =>
            let okB2 :=
              if b = 240 then 144 ≤ b2 && b2 ≤ 191
              else if b = 244 then 128 ≤ b2 && b2 ≤ 143
              else utf8Cont b2
            if okB2 && utf8Cont b3 && utf8Cont b4 then
              (utf8Decode f r).map (fun cs =>
                Char.ofNat ((b - 240) * 262144 + (b2 - 128) * 4096 + (b3 - 128) * 64 + (b4 - 128)) :: cs)
            else none
        | _ => none
      else none

/-- Decode a byte sequence as UTF-8 into a string, `none` on invalid UTF-8. -/
def utf8DecodeString (bs : List Nat) : Option String :=
  (utf8Decode bs.length bs).map String.mk

example : utf8DecodeString [72, 105] = some "Hi" := by decide
example : utf8DecodeString [226, 130, 172] = some "€" := by decide
example : utf8DecodeString [237, 160, 128] = none := by decide

/-- JSON whitespace characters skipped by Python's scanner. -/
def jsonWs (c : Char) : Bool :=
  c = ' ' || c = '\t' || c = '\n' || Char.toNat c = 13

/-- Drop leading JSON whitespace. -/
def skipWs (cs : List Char) : List Char :=
  cs.dropWhile jsonWs

/-- Value of a hexadecimal digit, for `\uXXXX` string escapes. -/
def hexVal (c : Char) : Option Nat :=
  if '0' ≤ c ∧ c ≤ '9' then some (c.toNat - 48)
  else if 'a' ≤ c ∧ c ≤ 'f' then some (c.toNat - 97 + 10)
  else if 'A' ≤ c ∧ c ≤ 'F' then some (c.toNat - 65 + 10)
  else none

/-- Body of a JSON string, after the opening quote: returns the decoded
characters and the input remaining after the closing quote.  Implements
Python's strict scanner: raw control characters are rejected, the eight
short escapes and `\uXXXX` are recognized (a `\uXXXX` unit is kept as a
single character; surrogate-pair recombination is outside the model). -/
def parseStringBody : Nat → List Char → Option (List Char × List Char)
  | 0, _ => none
  | _, [] => none
  | f + 1, c :: rest =>
      if c = '"' then some ([], rest)
      else if c = '\\' then
        match rest with
        | [] => none
        | e :: rest2 =>
            if e = 'u' then
              match rest2 with
              | h1 :: h2 :: h3 :: h4 :: rest3 =>
                  match hexVal h1, hexVal h2, hexVal h3, hexVal h4 with
                  | some v1, some v2, some v3, some v4 =>
                      (parseStringBody f rest3).map (fun (cs, rem) =>
                        (Char.ofNat (v1 * 4096 + v2 * 256 + v3 * 16 + v4) :: cs, rem))
                  | _, _, _, _ => none
              | _ => none
            else
              let dec : Option Char :=
                if e = '"' then some '"'
                else if e = '\\' then some '\\'
                else if e = '/' then some '/'
                else if e = 'b' then some (Char.ofNat 8)
                else if e = 'f' then some (Char.ofNat 12)
                else if e = 'n' then some '\n'
                else if e = 'r' then some (Char.ofNat 13)
                else if e = 't' then some '\t'
                else none
              match dec with
              | some d => (parseStringBody f rest2).map (fun (cs, rem) => (d :: cs, rem))
              | none => none
      else if c.toNat < 32 then none
      else (parseStringBody f rest).map (fun (cs, rem) => (c :: cs, rem))

/-- Integer-part digits of a JSON number: Python's grammar is
`0 | [1-9][0-9]*`, so a leading zero consumes exactly one digit. -/
def parseIntDigits (cs : List Char) : Option (List Char × List Char) :=
  match cs with
  | [] => none
  | c :: rest =>
      if c = '0' then some ([c], rest)
      else if c.isDigit then some (c :: rest.takeWhile Char.isDigit, rest.dropWhile Char.isDigit)
      else none

/-- Natural number denoted by a digit string. -/
def digitsToNat (ds : List Char) : Nat :=
  ds.foldl (fun acc d => acc * 10 + (d.toNat - 48)) 0

/-- JSON number after an optional leading minus sign (already consumed,
passed as `neg`): integer part, optional fraction, optional exponent, per
Python's `NUMBER_RE`.  A plain integer becomes `Json.num`; any number with
a fraction or exponent becomes a symbolic `Json.fnum` (Python would build
a float). -/
def parseNumberTail (neg : Bool) (cs : List Char) : Option (Json × List Char) :=
  (parseIntDigits cs).bind (fun (ip, rest1) =>
    let fracPart : Option (List Char) × List Char :=
      match rest1 with
      | '.' :: r =>
          let ds := r.takeWhile Char.isDigit
          if ds.isEmpty then (none, rest1) else (some ds, r.dropWhile Char.isDigit)
      | _ => (none, rest1)
    let (frac, rest2) := fracPart
    let expPart : Option Int × List Char :=
      match rest2 with
      | e :: r =>
          if e = 'e' ∨ e = 'E' then
            let (esign, r2) :=
              match r with
              | '-' :: r3 => (true, r3)
              | '+' :: r3 => (false, r3)
              | _ => (false, r)
            let ds := r2.takeWhile Char.isDigit
            if ds.isEmpty then (none, rest2)
            else
              let m : Int := Int.ofNat (digitsToNat ds)
              (some (if esign then -m else m), r2.dropWhile Char.isDigit)
          else (none, rest2)
      | _ => (none, rest2)
    let (ex, rest3) := expPart
    match frac, ex with
    | none, none =>
        let n : Int := Int.ofNat (digitsToNat ip)
        some (Json.num (if neg then -n else n), rest3)
    | _, _ => some (Json.fnum neg (digitsToNat ip) (frac.getD []) ex, rest3))

/-- Marker for Python's permissive `NaN` literal (never produced by the
code under verification; present only so the parser's domain matches
`json.loads`). -/
def jsonNaN : Json :=
  Json.str "\x00py-nan"

/-- Marker for Python's permissive `Infinity` literals (same caveat as
`jsonNaN`). -/
def jsonInf (neg : Bool) : Json :=
  Json.str (if neg then "\x00py-neg-infinity" else "\x00py-infinity")

mutual

/-- One JSON value at the head of the input (no leading whitespace):
recursive-descent model of Python's `json.loads` scanner, including the
permissive `NaN`/`Infinity`/`-Infinity` extensions (represented as the
`fnum` of an empty digit string is not available, so they are modelled as
dedicated fraction-free markers via `fnum` with sentinel digits — see
`jsonNaN`/`jsonInf` below — faithfulness note: the code under
verification never produces or consumes these).  Returns the value and
the unconsumed input. -/
def parseVal : Nat → List Char → Option (Json × List Char)
  | 0, _ => none
  | f + 1, cs =>
      match cs with
      | [] => none
      | c :: rest =>
          if c = '"' then
            (parseStringBody f rest).map (fun (body, rem) => (Json.str (String.mk body), rem))
          else if c = '\x7b' then
            parseMembers f (skipWs rest) [] true
          else if c = '[' then
            parseElems f (skipWs rest) [] true
          else if c = 't' then
            match rest with
            | 'r' :: 'u' :: 'e' :: r => some (Json.bool true, r)
            | _ => none
          else if c = 'f' then
            match rest with
            | 'a' :: 'l' :: 's' :: 'e' :: r => some (Json.bool false, r)
            | _ => none
          else if c = 'n' then
            match rest with
            | 'u' :: 'l' :: 'l' :: r => some (Json.null, r)
            | _ => none
          else if c = 'N' then
            match rest with
            | 'a' :: 'N' :: r => some (jsonNaN, r)
            | _ => none
          else if c = 'I' then
            match rest with
            | 'n' :: 'f' :: 'i' :: 'n' :: 'i' :: 't' :: 'y' :: r => some (jsonInf false, r)
            | _ => none
          else if c = '-' then
            match rest with
            | 'I' :: 'n' :: 'f' :: 'i' :: 'n' :: 'i' :: 't' :: 'y' :: r => some (jsonInf true, r)
            | _ => parseNumberTail true rest
          else parseNumberTail false cs

/-- Members of a JSON object after the opening brace (whitespace already
skipped); `first` is true before any member has been read.  Duplicate keys
overwrite in place, as a Python dict build does. -/
def parseMembers : Nat → List Char → List (String × Json) → Bool →
    Option (Json × List Char)
  | 0, _, _, _ => none
  | f + 1, cs, acc, first =>
      match cs with
      | [] => none
      | c :: rest =>
          if c = '\x7d' ∧ first then some (Json.obj acc, rest)
          else if c = '"' then
            (parseStringBody f rest).bind (fun (key, rem) =>
              match skipWs rem with
              | ':' :: rem2 =>
                  (parseVal f (skipWs rem2)).bind (fun (v, rem3) =>
                    let acc2 := objSet acc (String.mk key) v
                    match skipWs rem3 with
                    | ',' :: rem4 => parseMembers f (skipWs rem4) acc2 false
                    | '\x7d' :: rem4 => some (Json.obj acc2, rem4)
                    | _ => none)
              | _ => none)
          else none

/-- Elements of a JSON array after the opening bracket (whitespace already
skipped); `first` is true before any element has been read. -/
def parseElems : Nat → List Char → List Json → Bool → Option (Json × List Char)
  | 0, _, _, _ => none
  | f + 1, cs, acc, first =>
      match cs with
      | [] => none
      | c :: rest =>
          if c = ']' ∧ first then some (Json.arr acc.reverse, rest)
          else
            (parseVal f cs).bind (fun (v, rem) =>
              match skipWs rem with
              | ',' :: rem2 => parseElems f (skipWs rem2) (v :: acc) false
              | ']' :: rem2 => some (Json.arr (v :: acc).reverse, rem2)
              | _ => none)

end

/-- Model of Python `json.loads` on a string: skip surrounding whitespace,
scan exactly one value, reject trailing input. -/
def pyJsonLoads (s : String) : Option Json :=
  let cs := s.toList
  (parseVal (cs.length + 1) (skipWs cs)).bind (fun (v, rest) =>
    if skipWs rest = [] then some v else none)

/-- Byte pairs to UTF-16 code units (big- or little-endian); `none` on a
trailing odd byte. -/
def utf16Units (be : Bool) : List Nat → Option (List Nat)
  | [] => some []
  | [_] => none
  | b1 :: b2 :: rest =>
      (utf16Units be rest).map
        (fun us => (if be then b1 * 256 + b2 else b2 * 256 + b1) :: us)

/-- Strict UTF-16 code-unit combination: a high surrogate must be followed
by a low surrogate, a lone low surrogate is an error. -/
def utf16Combine : List Nat → Option (List Char)
  | [] => some []
  | u :: rest =>
      if 55296 ≤ u ∧ u ≤ 56319 then
        match rest with
        | u2 :: rest2 =>
            if 56320 ≤ u2 ∧ u2 ≤ 57343 then
              (utf16Combine rest2).map
                (fun cs => Char.ofNat (65536 + (u - 55296) * 1024 + (u2 - 56320)) :: cs)
            else none
        | [] => none
      else if 56320 ≤ u ∧ u ≤ 57343 then none
      else (utf16Combine rest).map (fun cs => Char.ofNat u :: cs)

/-- Strict UTF-16 decode of a byte sequence. -/
def utf16DecodeString (be : Bool) (bs : List Nat) : Option String :=
  (utf16Units be bs).bind (fun us => (utf16Combine us).map String.mk)

/-- Strict UTF-32 decode: four bytes per code point, rejecting values
beyond U+10FFFF and surrogates; `none` on a trailing partial quad. -/
def utf32Decode (be : Bool) : List Nat → Option (List Char)
  | [] => some []
  | b1 :: b2 :: b3 :: b4 :: rest =>
      let v := if be then ((b1 * 256 + b2) * 256 + b3) * 256 + b4
               else ((b4 * 256 + b3) * 256 + b2) * 256 + b1
      if v < 1114112 ∧ ¬ (55296 ≤ v ∧ v ≤ 57343) then
        (utf32Decode be rest).map (fun cs => Char.ofNat v :: cs)
      else none
  | _ => none

/-- Strict UTF-32 decode of a byte sequence, as a string. -/
def utf32DecodeString (be : Bool) (bs : List Nat) : Option String :=
  (utf32Decode be bs).map String.mk

/-- Model of the decoding `json.loads` applies to a `bytes` argument:
`json.detect_encoding` (BOM sniffing of UTF-32/UTF-16/UTF-8, then the
zero-byte-pattern heuristics of `json/__init__.py`), followed by a strict
decode in the detected encoding. -/
def pyDecodeJsonBytes (bs : List Nat) : Option String :=
  match bs with
  | 0 :: 0 :: 254 :: 255 :: rest => utf32DecodeString true rest
  | 255 :: 254 :: 0 :: 0 :: rest => utf32DecodeString false rest
  | 254 :: 255 :: rest => utf16DecodeString true rest
  | 239 :: 187 :: 191 :: rest => utf8DecodeString rest
  | b0 :: b1 :: b2 :: b3 :: rest =>
      if b0 = 255 ∧ b1 = 254 then utf16DecodeString false (b2 :: b3 :: rest)
      else if b0 = 0 then
        if b1 ≠ 0 then utf16DecodeString true bs else utf32DecodeString true bs
      else if b1 = 0 then
        if b2 ≠ 0 ∨ b3 ≠ 0 then utf16DecodeString false bs else utf32DecodeString false bs
      else utf8DecodeString bs
  | [255, 254] => utf16DecodeString false []
  | [b0, b1] =>
      if b0 = 0 then utf16DecodeString true bs
      else if b1 = 0 then utf16DecodeString false bs
      else utf8DecodeString bs
  | _ => utf8DecodeString bs

example : pyDecodeJsonBytes [0, 123, 0, 125] = some "\x7b\x7d" := by decide
example : pyDecodeJsonBytes [123, 0, 125, 0] = some "\x7b\x7d" := by decide
example : pyDecodeJsonBytes [255, 254, 123, 0, 125, 0] = some "\x7b\x7d" := by decide
example : pyDecodeJsonBytes [0, 0, 0, 123, 0, 0, 0, 125] = some "\x7b\x7d" := by decide
example : pyDecodeJsonBytes [255, 254, 0, 0, 123, 0, 0, 0] = some "\x7b" := by decide
example : pyDecodeJsonBytes [239, 187, 191, 123, 125] = some "\x7b\x7d" := by decide
example : pyDecodeJsonBytes [91, 93] = some "[]" := by decide

/-- Model of Python `json.loads` on `bytes`: detect the encoding, decode,
then parse. -/
def pyJsonLoadsBytes (bs : List Nat) : Option Json :=
  (pyDecodeJsonBytes bs).bind pyJsonLoads

example : (pyJsonLoads "\x7b\"a\":1,\"b\":2,\"a\":3\x7d").map Json.dumps =
    some "\x7b\"a\": 3, \"b\": 2\x7d" := by
  decide

example : (pyJsonLoads " [0.1, -2, 1e5, \"x\\n\", true, null, \x7b\x7d] ").map Json.dumps =
    some "[0.1, -2, 1e5, \"x\\n\", true, null, \x7b\x7d]" := by
  decide

example : pyJsonLoads "01" = none := rfl

example : pyJsonLoadsBytes [65, 66, 67] = none := rfl

/-- Two-digit zero-padded decimal field, as produced by `strftime` for
`%m %d %H %M %S`. -/
def pad2 (n : Nat) : String :=
  if n < 10 then "0" ++ toString n else toString n

/-- Four-digit zero-padded year, as produced by `strftime` `%Y` for the
years reachable here. -/
def pad4 (y : Int) : String :=
  if y < 0 then "-" ++ toString (-y)
  else if y < 10 then "000" ++ toString y
  else if y < 100 then "00" ++ toString y
  else if y < 1000 then "0" ++ toString y
  else toString y

/-- Proleptic-Gregorian civil date from a day count relative to 1970-01-01
(Howard Hinnant's `civil_from_days` algorithm, the standard conversion
used by calendar libraries; floor division throughout so negative day
counts are handled). -/
def civilFromDays (z0 : Int) : Int × Nat × Nat :=
  let z := z0 + 719468
  let era := Int.fdiv z 146097
  let doe := (z - era * 146097).toNat
  let yoe := (doe - doe / 1460 + doe / 36524 - doe / 146096) / 365
  let y := (yoe : Int) + era * 400
  let doy := doe - (365 * yoe + yoe / 4 - yoe / 100)
  let mp := (5 * doy + 2) / 153
  let d := doy - (153 * mp + 2) / 5 + 1
  let m := if mp < 10 then mp + 3 else mp - 9
  (if m ≤ 2 then y + 1 else y, m, d)

/-- Model of
`datetime.fromtimestamp(ts).strftime('%Y-%m-%d %H:%M:%S UTC')` on a host
whose local timezone is a fixed `tzOffset` seconds east of UTC:
`datetime.fromtimestamp` converts to *local* civil time, so the rendered
text is the civil time of `ts + tzOffset`, yet the format string appends
the literal text " UTC" regardless.  `tzOffset = 0` models a
UTC-configured host, for which this coincides with a true UTC rendering. -/
def fromtimestampFormatted (tzOffset ts : Int) : String :=
  let t := ts + tzOffset
  let days := Int.fdiv t 86400
  let sod := (t - days * 86400).toNat
  let (y, m, d) := civilFromDays days
  pad4 y ++ "-" ++ pad2 m ++ "-" ++ pad2 d ++ " " ++
    pad2 (sod / 3600) ++ ":" ++ pad2 (sod % 3600 / 60) ++ ":" ++ pad2 (sod % 60) ++ " UTC"

example : fromtimestampFormatted 0 0 = "1970-01-01 00:00:00 UTC" := by decide
example : fromtimestampFormatted 3600 0 = "1970-01-01 01:00:00 UTC" := by decide
example : fromtimestampFormatted 0 1757522400 = "2025-09-10 16:40:00 UTC" := by decide
example : fromtimestampFormatted (-18000) 0 = "1969-12-31 19:00:00 UTC" := by decide

/-- Human-readable rendering attached by `decode_jwt_tool` for a timestamp
field value, when the model supports that value's type: JSON integers
(and booleans, which Python's `int`-subtyping accepts) are rendered via
`fromtimestampFormatted`; every other type is mapped to `none`, standing
for the exception branch.  Model boundary: Python would also accept
fractional timestamps (floats); the claims under verification only
concern integer `iat`/`exp`, so floats are conservatively mapped to the
exception branch as well. -/
def timestampReadable (tzOffset : Int) : Json → Option String
  | Json.num n => some (fromtimestampFormatted tzOffset n)
  | Json.bool b => some (fromtimestampFormatted tzOffset (if b then 1 else 0))
  | _ => none

/-- Boolean prefix test on strings (Python `s.startswith(pre)`), defined
via lists so it evaluates in the kernel. -/
def pyStartsWith (s pre : String) : Bool :=
  pre.toList.isPrefixOf s.toList

/-- Boolean suffix test on strings (Python `s.endswith(suf)`). -/
def pyEndsWith (s suf : String) : Bool :=
  suf.toList.isSuffixOf s.toList

/-- Boolean infix test on lists (needle occurs contiguously in hay). -/
def listInfixOf (needle : List Char) : List Char → Bool
  | [] => needle.isEmpty
  | c :: rest => needle.isPrefixOf (c :: rest) || listInfixOf needle rest

/-- Boolean substring test on strings (Python `sub in s`). -/
def pyContains (s sub : String) : Bool :=
  listInfixOf sub.toList s.toList

/-- Python type name of a decoded JSON value, as it appears in `TypeError`
messages. -/
def pyTypeName : Json → String
  | Json.null => "NoneType"
  | Json.bool _ => "bool"
  | Json.num _ => "int"
  | Json.fnum _ _ _ _ => "float"
  | Json.str _ => "str"
  | Json.arr _ => "list"
  | Json.obj _ => "dict"

/-- Model of Python `key in payload` on a decoded JSON value: key
membership for a dict, element equality for a list (a string key can only
equal a string element), substring test for a string, and `none` —
standing for `TypeError: argument of type '<t>' is not iterable` — for
every other type. -/
def pyContainsKey (p : Json) (key : String) : Option Bool :=
  match p with
  | Json.obj fs => some (fs.lookup key).isSome
  | Json.arr xs =>
      some (xs.any (fun x => match x with | Json.str s => s = key | _ => false))
  | Json.str s => some (pyContains s key)
  | _ => none

/-- Step of `decode_jwt_tool` that attaches `<key>_readable` when `key` is
contained in the decoded payload: the `in` test itself raises `TypeError`
on non-iterable payloads; a contained key on a list or string payload
makes the subsequent `payload[key]` subscript raise `TypeError`; on a
dict the timestamp is rendered and the `_readable` field stored. -/
def attachReadable (tzOffset : Int) (key : String) (p : Json) : Except String Json :=
  match pyContainsKey p key with
  | none =>
      Except.error ("argument of type \x27" ++ pyTypeName p ++ "\x27 is not iterable")
  | some false => Except.ok p
  | some true =>
      match p with
      | Json.obj fs =>
          match fs.lookup key with
          | some v =>
              match timestampReadable tzOffset v with
              | some s =>
                  Except.ok (Json.obj (objSet fs (key ++ "_readable") (Json.str s)))
              | none => Except.error "fromtimestamp argument must be an integer timestamp"
          | none => Except.ok p
      | Json.arr _ => Except.error "list indices must be integers or slices, not str"
      | _ => Except.error "string indices must be integers, not \x27str\x27"

/-- Modelled message of the `binascii.Error` raised when the accumulating
base64 decode ends with pending values (Python reports "Invalid
base64-encoded string: number of data characters (n) cannot be 1 more
than a multiple of 4" or "Incorrect padding"). -/
def b64ErrMsg (s : String) : String :=
  let n := ((s.toList.map pyB64Translate).filter (fun c => (b64CharVal c).isSome)).length
  if n % 4 = 1 then
    "Invalid base64-encoded string: number of data characters (" ++ toString n ++
      ") cannot be 1 more than a multiple of 4"
  else "Incorrect padding"

/-- Modelled message for a `json.loads` failure (CPython reports
"Expecting value: line l column c (char n)" and similar; the exact
position bookkeeping is outside the model). -/
def jsonErrMsg : String :=
  "Expecting value"

/-- Modelled message for the `UnicodeDecodeError` raised when the decoded
segment is not valid text in the detected encoding (the claims under
verification never pin this message's exact content). -/
def unicodeErrMsg : String :=
  "codec cannot decode bytes"

/-- Structurally recursive model of Python `s.split('.')` (Lean's
`String.splitOn` has the same behaviour but is defined by well-founded
recursion, which the kernel will not unfold during evaluation). -/
def splitOnChar (sep : Char) : List Char → List (List Char)
  | [] => [[]]
  | c :: rest =>
      match splitOnChar sep rest with
      | [] => [[c]]
      | g :: gs => if c = sep then [] :: g :: gs else (c :: g) :: gs

/-- Python `s.split('.')` on strings. -/
def pySplitDot (s : String) : List String :=
  (splitOnChar '.' s.toList).map String.mk

example : pySplitDot "a.b.c" = ["a", "b", "c"] := by decide
example : pySplitDot "" = [""] := by decide
example : pySplitDot ".." = ["", "", ""] := by decide

/-- Right-padding applied by `decode_jwt_tool` before base64 decoding:
`seg + '=' * (4 - len(seg) % 4)` — note that a segment whose length is
already a multiple of 4 receives four padding characters (harmless, since
the non-strict decoder ignores surplus padding). -/
def jwtPad (seg : String) : String :=
  seg ++ String.mk (List.replicate (4 - seg.length % 4) '=')

/-- Base64url-then-JSON decoding of one JWT segment, with the modelled
exception message on failure. -/
def jwtSegmentDecode (seg : String) : Except String Json :=
  match pyUrlsafeB64Decode (jwtPad seg) with
  | none => Except.error (b64ErrMsg (jwtPad seg))
  | some bs =>
      match pyDecodeJsonBytes bs with
      | none => Except.error unicodeErrMsg
      | some s =>
          match pyJsonLoads s with
          | none => Except.error jsonErrMsg
          | some j => Except.ok j

/-- Core of `decode_jwt_tool` (`agents/jwt_decoder_agent.py`, lines
16-41): split on `.` into exactly three parts, pad and base64url-decode
header and payload, JSON-parse each, then attach `iat_readable` /
`exp_readable` for any `iat` / `exp` field.  `tzOffset` is the host's
local-timezone offset in seconds east of UTC, on which
`datetime.fromtimestamp` depends.  Returns the header and enriched
payload, or the message of the first exception (Python's `try` block
short-circuits in the same order). -/
def decodeJwtCore (tzOffset : Int) (token : String) : Except String (Json × Json) :=
  match pySplitDot token with
  | [h, p, _sig] =>
      match jwtSegmentDecode h with
      | Except.error e => Except.error e
      | Except.ok headerJson =>
          match jwtSegmentDecode p with
          | Except.error e => Except.error e
          | Except.ok payloadJson =>
              match attachReadable tzOffset "iat" payloadJson with
              | Except.error e => Except.error e
              | Except.ok p1 =>
                  match attachReadable tzOffset "exp" p1 with
                  | Except.error e => Except.error e
                  | Except.ok p2 => Except.ok (headerJson, p2)
  | parts =>
      if parts.length < 3 then
        Except.error ("not enough values to unpack (expected 3, got " ++
          toString parts.length ++ ")")
      else Except.error "too many values to unpack (expected 3)"

/-- Model of `decode_jwt_tool(jwt_token)` (`agents/jwt_decoder_agent.py`,
lines 14-45): on success, `json.dumps(result, indent=2)` of
`(header, payload, status: "success")`; on any exception,
`json.dumps` of `(error: "Failed to decode JWT: <message>",
status: "error")`.  Total — every failure is a returned value, never a
raised exception. -/
def decodeJwtTool (tzOffset : Int) (token : String) : String :=
  match decodeJwtCore tzOffset token with
  | Except.ok (h, p) =>
      Json.dumps2 (Json.obj [("header", h), ("payload", p), ("status", Json.str "success")])
  | Except.error msg =>
      Json.dumps (Json.obj [("error", Json.str ("Failed to decode JWT: " ++ msg)),
        ("status", Json.str "error")])

example : decodeJwtTool 0 "eyJhbGciOiJIUzI1NiJ9.eyJpYXQiOjB9.sig" =
    "\x7b\n  \"header\": \x7b\n    \"alg\": \"HS256\"\n  \x7d,\n  \"payload\": \x7b\n    \"iat\": 0,\n    \"iat_readable\": \"1970-01-01 00:00:00 UTC\"\n  \x7d,\n  \"status\": \"success\"\n\x7d" := by
  decide

example : decodeJwtTool 0 "W1=0.W1=0.sig" =
    "\x7b\n  \"header\": [],\n  \"payload\": [],\n  \"status\": \"success\"\n\x7d" := by
  decide

example : decodeJwtTool 0 "onlyonepart" =
    "\x7b\"error\": \"Failed to decode JWT: not enough values to unpack (expected 3, got 1)\", \"status\": \"error\"\x7d" := by
  decide

/-- Characters allowed in a URL scheme by Python `urllib.parse`
(letters, digits, `+`, `-`, `.`). -/
def isSchemeChar (c : Char) : Bool :=
  c.isAlpha || c.isDigit || c = '+' || c = '-' || c = '.'

/-- Input sanitization performed by Python `urlsplit` before parsing
(CPython ≥ 3.6.14, bpo-43882): strip leading C0-control and space
characters (code points 0x00-0x20; only the leading end is stripped),
then remove every tab, carriage return and line feed from the remainder. -/
def urlSanitize (url : String) : List Char :=
  (url.toList.dropWhile (fun c => c.toNat ≤ 32)).filter
    (fun c => ¬ (c = '\t' ∨ c.toNat = 13 ∨ c = '\n'))

/-- Scheme component of Python `urlparse(url)`: after sanitization, the
part before the first `:`, lowercased, provided it is non-empty, starts
with a letter and contains only scheme characters; otherwise the empty
string. -/
def pyUrlScheme (url : String) : String :=
  let cs := urlSanitize url
  let pre := cs.takeWhile (fun c => ¬ c = ':')
  if pre.length < cs.length ∧ pre ≠ [] ∧ (pre.headD ' ').isAlpha = true ∧ pre.all isSchemeChar = true then
    String.mk (pre.map Char.toLower)
  else ""

/-- Remainder of the sanitized URL after the scheme (and its colon) have
been stripped, when a scheme is present. -/
def pyUrlRest (url : String) : List Char :=
  let cs := urlSanitize url
  if pyUrlScheme url = "" then cs else (cs.dropWhile (fun c => ¬ c = ':')).drop 1

/-- Netloc component of Python `urlparse(url)`: if what follows the
scheme starts with `//`, everything up to the next `/`, `?` or `#`;
otherwise empty. -/
def pyUrlNetloc (url : String) : String :=
  match pyUrlRest url with
  | '/' :: '/' :: rest =>
      String.mk (rest.takeWhile (fun c => ¬ (c = '/' ∨ c = '?' ∨ c = '#')))
  | _ => ""

example : pyUrlScheme "https://mcp.dappier.com/mcp" = "https" := by decide
example : pyUrlNetloc "https://mcp.dappier.com/mcp" = "mcp.dappier.com" := by decide
example : pyUrlScheme "HTTP://x" = "http" := by decide
example : pyUrlNetloc "http://" = "" := by decide
example : pyUrlScheme "ftp://h" = "ftp" := by decide
example : pyUrlNetloc "mcp.dappier.com/mcp" = "" := by decide
example : pyUrlScheme "ht\ttps://host" = "https" := by decide
example : pyUrlNetloc "ht\ttps://host" = "host" := by decide
example : pyUrlNetloc "https://\t" = "" := by decide
example : pyUrlScheme " http://h " = "http" := by decide
example : pyUrlNetloc " http://h " = "h " := by decide
example : pyUrlNetloc "http://h\n/p" = "h" := by decide

/-- Model of `_mask_token` (`agents/mcp_connector_agent.py`, lines
23-29) with the default `head = tail = 12`: empty and short (length
≤ 24) tokens are returned unchanged, otherwise first 12 + "..." + last
12 characters. -/
def maskToken (t : String) : String :=
  if t = "" then ""
  else if t.length ≤ 24 then t
  else String.mk (t.toList.take 12) ++ "..." ++ String.mk (t.toList.drop (t.length - 12))

/-- One entry of the mocked pricing table. -/
def pricingEntry (name : String) (price : Json) : Json :=
  Json.obj [("toolName", Json.str name), ("pricePerQuery", price), ("currency", Json.str "USD")]

/-- Decimal literal with integer part 0, e.g. `jdec ['1'] = 0.1`. -/
def jdec (frac : List Char) : Json :=
  Json.fnum false 0 frac none

/-- The ten pricing entries of the mocked resources document
(`structuredContent` in `agents/mcp_connector_agent.py`, lines
159-170). -/
def pricingEntries : List Json :=
  [pricingEntry "benzinga" (jdec [ '1' ]),
   pricingEntry "iheartcats-ai" (jdec [ '0', '1' ]),
   pricingEntry "iheartdogs-ai" (jdec [ '0', '1' ]),
   pricingEntry "lifestyle-news" (jdec [ '1' ]),
   pricingEntry "one-green-planet" (jdec [ '0', '1' ]),
   pricingEntry "real-time-search" (Json.num 0),
   pricingEntry "research-papers-search" (jdec [ '0', '0', '3' ]),
   pricingEntry "sports-news" (jdec [ '0', '0', '4' ]),
   pricingEntry "stock-market-data" (jdec [ '0', '0', '7' ]),
   pricingEntry "wish-tv-ai" (jdec [ '0', '0', '4' ])]

/-- The escaped-JSON-text form of the pricing table, verbatim from the
`"text"` field in `agents/mcp_connector_agent.py`, line 156. -/
def pricingText : String :=
  "[\n  \x7b\n    \"toolName\": \"benzinga\",\n    \"pricePerQuery\": 0.1,\n    \"currency\": \"USD\"\n  \x7d,\n  \x7b\n    \"toolName\": \"iheartcats-ai\",\n    \"pricePerQuery\": 0.01,\n    \"currency\": \"USD\"\n  \x7d,\n  \x7b\n    \"toolName\": \"iheartdogs-ai\",\n    \"pricePerQuery\": 0.01,\n    \"currency\": \"USD\"\n  \x7d,\n  \x7b\n    \"toolName\": \"lifestyle-news\",\n    \"pricePerQuery\": 0.1,\n    \"currency\": \"USD\"\n  \x7d,\n  \x7b\n    \"toolName\": \"one-green-planet\",\n    \"pricePerQuery\": 0.01,\n    \"currency\": \"USD\"\n  \x7d,\n  \x7b\n    \"toolName\": \"real-time-search\",\n    \"pricePerQuery\": 0,\n    \"currency\": \"USD\"\n  \x7d,\n  \x7b\n    \"toolName\": \"research-papers-search\",\n    \"pricePerQuery\": 0.003,\n    \"currency\": \"USD\"\n  \x7d,\n  \x7b\n    \"toolName\": \"sports-news\",\n    \"pricePerQuery\": 0.004,\n    \"currency\": \"USD\"\n  \x7d,\n  \x7b\n    \"toolName\": \"stock-market-data\",\n    \"pricePerQuery\": 0.007,\n    \"currency\": \"USD\"\n  \x7d,\n  \x7b\n    \"toolName\": \"wish-tv-ai\",\n    \"pricePerQuery\": 0.004,\n    \"currency\": \"USD\"\n  \x7d\n]"

/-- The hard-coded resources/pricing document returned by the mocked
pricing tool (`resources_json` in `agents/mcp_connector_agent.py`,
lines 151-171). -/
def resourcesJson : Json :=
  Json.obj
    [("contents", Json.arr
       [Json.obj
         [("uri", Json.str "dappier-tools-pricing://all-tools"),
          ("mimeType", Json.str "application/json"),
          ("text", Json.str pricingText)]]),
     ("structuredContent", Json.arr pricingEntries)]

/-- Model of `get_dappier_resources_pricing(mcp_url, skyfire_pay_id)`
(`agents/mcp_connector_agent.py`, lines 123-186), at the level of the
structure handed to `json.dumps`: validate the JWT-ish shape of the pay
id, default an empty URL, validate scheme/netloc, and on success return
the envelope embedding `resourcesJson` verbatim. -/
def getDappierResourcesPricing (mcpUrl skyfirePayId : String) : Json :=
  if skyfirePayId = "" ∨ (pySplitDot skyfirePayId).length ≠ 3 then
    Json.obj
      [("status", Json.str "error"),
       ("message", Json.str "Invalid JWT token format (expected header.payload.signature)"),
       ("mcp_url", Json.str mcpUrl),
       ("token_preview", Json.str (maskToken skyfirePayId))]
  else
    let url := if mcpUrl = "" then "https://mcp.dappier.com/mcp" else mcpUrl
    if ¬ (pyUrlScheme url = "http" ∨ pyUrlScheme url = "https") ∨ pyUrlNetloc url = "" then
      Json.obj
        [("status", Json.str "error"),
         ("message", Json.str "Invalid mcp_url (must be http(s)://host[/path])"),
         ("mcp_url", Json.str url),
         ("token_preview", Json.str (maskToken skyfirePayId))]
    else
      Json.obj
        [("status", Json.str "success"),
         ("message", Json.str "Mocked resources & pricing returned"),
         ("mcp_url", Json.str url),
         ("token_preview", Json.str (maskToken skyfirePayId)),
         ("data", resourcesJson)]

/-- Rendered form of the tool result: the success envelope is serialized
with `indent=2`, the two error envelopes without indentation, exactly as
in the source's three `json.dumps` calls. -/
def getDappierResourcesPricingStr (mcpUrl skyfirePayId : String) : String :=
  let j := getDappierResourcesPricing mcpUrl skyfirePayId
  if skyfirePayId = "" ∨ (pySplitDot skyfirePayId).length ≠ 3 then Json.dumps j
  else
    let url := if mcpUrl = "" then "https://mcp.dappier.com/mcp" else mcpUrl
    if ¬ (pyUrlScheme url = "http" ∨ pyUrlScheme url = "https") ∨ pyUrlNetloc url = "" then
      Json.dumps j
    else Json.dumps2 j

/-- Python string whitespace — the characters removed by `str.strip()`,
i.e. those for which `str.isspace()` holds: the ASCII whitespace and
separator controls, NEL, NBSP, and the Unicode space separators plus the
line/paragraph separators. -/
def pyWsChar (c : Char) : Bool :=
  (9 ≤ c.toNat && c.toNat ≤ 13) || (28 ≤ c.toNat && c.toNat ≤ 32) ||
    c.toNat = 133 || c.toNat = 160 || c.toNat = 5760 ||
    (8192 ≤ c.toNat && c.toNat ≤ 8202) || c.toNat = 8232 || c.toNat = 8233 ||
    c.toNat = 8239 || c.toNat = 8287 || c.toNat = 12288

/-- Model of Python `s.strip()`. -/
def pyStrip (s : String) : String :=
  String.mk (((s.toList.dropWhile pyWsChar).reverse.dropWhile pyWsChar).reverse)

/-- One turn of the optional conversation history passed to `/chat`: the
`role` and `content` fields of a history entry (a missing `role` key reads
as `"user"` and a missing `content` key as `""` via `dict.get`, so plain
string fields lose no generality). -/
structure HistMsg where
  role : String
  content : String

/-- Rendering of one history turn inside `build_conversation_context`
(`utils/helpers.py`, lines 70-85): turns with empty/whitespace-only
content are skipped, internal handoff turns (content starting with
"Transferring from" and containing "to") are skipped, a `user` turn
renders as `User: <content>`, an `assistant` turn as
`Assistant: <content>`, and a turn with any other role matches neither
`if` branch and is skipped. -/
def renderTurn (m : HistMsg) : Option String :=
  if pyStrip m.content = "" then none
  else if pyStartsWith m.content "Transferring from" && pyContains m.content "to" then none
  else if m.role = "user" then some ("User: " ++ m.content)
  else if m.role = "assistant" then some ("Assistant: " ++ m.content)
  else none

/-- Model of Python `"\n".join(parts)`, structurally recursive so it
evaluates in the kernel. -/
def joinNl : List String → String
  | [] => ""
  | [x] => x
  | x :: y :: rest => x ++ "\n" ++ joinNl (y :: rest)

/-- Model of `build_conversation_context(current_message,
messages_history)` (`utils/helpers.py`, lines 59-91): with no history the
message is returned unchanged; otherwise the parts list
(header, rendered turns, current-message part, fixed instruction part) is
joined with newlines. -/
def buildConversationContext (currentMessage : String) (history : List HistMsg) : String :=
  if history.isEmpty then currentMessage
  else
    joinNl
      ("Previous conversation:" :: history.filterMap renderTurn ++
        ["\nCurrent user message: " ++ currentMessage,
         "\nPlease respond to the current user message, taking into account the conversation history above."])

set_option maxRecDepth 8192 in
example : buildConversationContext "C" [⟨"user", "A"⟩, ⟨"assistant", "B"⟩] =
    "Previous conversation:\nUser: A\nAssistant: B\n\nCurrent user message: C\n\nPlease respond to the current user message, taking into account the conversation history above." := by
  decide

example : buildConversationContext "C" [] = "C" := by decide

/-- Metadata record of one session (`created_at`, `last_activity`,
`message_count`); timestamps are modelled as integer seconds. -/
structure SessMeta where
  createdAt : Int
  lastActivity : Int
  messageCount : Nat

/-- State of a `SessionService`: the `session_agents` table (only its key
set matters to the lifecycle logic, so it is modelled as the insertion-
ordered key list) and the `session_metadata` table (insertion-ordered
association list, mirroring dict iteration order). -/
structure SessionState where
  agents : List String
  metadata : List (String × SessMeta)

/-- Session limits from `config/config.py` (`SESSION_CONFIG`). -/
def maxSessions : Nat := 100

/-- Session idle timeout in seconds from `config/config.py`. -/
def sessionTimeout : Int := 3600

/-- Keys collected by the scan loop of `cleanup_expired_sessions`
(`services/session_service.py`, lines 96-99): sessions with
`now - last_activity > session_timeout`. -/
def expiredKeys (now : Int) (md : List (String × SessMeta)) : List String :=
  (md.filter (fun e => sessionTimeout < now - e.2.lastActivity)).map (fun e => e.1)

/-- Model of `delete_session` (`services/session_service.py`, lines
78-90): remove the key from both tables. -/
def deleteSession (st : SessionState) (k : String) : SessionState :=
  ⟨st.agents.filter (fun a => a ≠ k), st.metadata.filter (fun e => e.1 ≠ k)⟩

/-- Model of `cleanup_expired_sessions` (`services/session_service.py`,
lines 92-105): collect the expired keys, delete each, return the count
and the new state. -/
def cleanupExpiredSessions (now : Int) (st : SessionState) : Nat × SessionState :=
  let ks := expiredKeys now st.metadata
  (ks.length, ks.foldl deleteSession st)

/-- Model of Python `min(keys, key=lambda k: metadata[k]['last_activity'])`
over the metadata table: first key attaining the minimal `last_activity`
(Python's `min` keeps the earlier element on ties), `none` on an empty
table (where Python would raise `ValueError`). -/
def oldestSessionKey (md : List (String × SessMeta)) : Option String :=
  match md with
  | [] => none
  | e :: rest =>
      some ((rest.foldl (fun b a => if a.2.lastActivity < b.2.lastActivity then a else b) e).1)

/-- Model of Python dict assignment on the metadata table (replace in
place if present, append otherwise). -/
def metaSet (md : List (String × SessMeta)) (k : String) (v : SessMeta) :
    List (String × SessMeta) :=
  match md with
  | [] => [(k, v)]
  | (k0, w) :: rest =>
      if k0 = k then (k0, v) :: rest else (k0, w) :: metaSet rest k v

/-- Model of `SessionService.create_session` (`services/session_service.py`,
lines 18-44) with the fresh id `newId` (the uuid draw) and the current
time `now`: run expiry cleanup; if the agents table is still at capacity,
delete the session with the oldest `last_activity`; then record fresh
metadata for the new id.  Returns the new state (the Python method also
returns `newId`). -/
def createSession (now : Int) (newId : String) (st : SessionState) : SessionState :=
  let st1 := (cleanupExpiredSessions now st).2
  let st2 :=
    if maxSessions ≤ st1.agents.length then
      match oldestSessionKey st1.metadata with
      | some k => deleteSession st1 k
      | none => st1
    else st1
  ⟨st2.agents, metaSet st2.metadata newId ⟨now, now, 0⟩⟩

example :
    (cleanupExpiredSessions 10000 ⟨["a", "b"], [("a", ⟨0, 6399, 1⟩), ("b", ⟨0, 6400, 2⟩)]⟩) =
      (1, ⟨["b"], [("b", ⟨0, 6400, 2⟩)]⟩) := by
  rfl

/-- An HTTP response as seen by `requests.post` in `charge_token_tool`:
status code and body text. -/
structure HttpResponse where
  status : Int
  body : String

/-- A record of one outbound charge request: URL, API key header, and the
two JSON body fields. -/
structure ChargeRequest where
  url : String
  apiKey : String
  token : String
  chargeAmount : String

/-- Outcome branches of `charge_token_tool`
(`agents/skyfire_charge_token_agent.py`, lines 13-68), before JSON
rendering. -/
inductive ChargeResult where
  | missingKey : ChargeResult
  | success (fields : List (String × Json)) : ChargeResult
  | apiFailed (code : Int) (body : String) : ChargeResult
  | requestFailed (msg : String) : ChargeResult
  | unexpected (msg : String) : ChargeResult

/-- Message of the `TypeError` raised by `result["success"] = True` when
the parsed body is not a JSON object, as CPython words it for each
type. -/
def itemAssignErrMsg : Json → String
  | Json.arr _ => "list indices must be integers or slices, not str"
  | j => "\x27" ++ pyTypeName j ++ "\x27 object does not support item assignment"

/-- Core of `charge_token_tool(token, charge_amount)`
(`agents/skyfire_charge_token_agent.py`, lines 13-68).  `env` is the
value of the `SKYFIRE_SELLER_API_KEY` environment variable (`none` when
absent; Python's `if not skyfire_api_key` also treats the empty string as
missing).  `net` is the outcome of the single `requests.post`:
`Except.error m` models a transport-level `requests.exceptions.%x52equestException`
with message `m`, `Except.ok resp` a received response.  On a 200
response whose body does not parse as JSON, `response.json()` raises
`requests.exceptions.JSONDecodeError`, which since requests 2.27 (2022)
subclasses `RequestException` and is therefore caught by the *first*
handler ("Request failed: ..."); its message depends on where in the body
CPython's scanner fails, so the model takes that message as the
`parseErr` parameter rather than recomputing the scanner's positions.
On a 200 response whose body parses to a non-object,
`result["success"] = True` raises `TypeError`, caught by the generic
handler ("Unexpected error: ..."). -/
def chargeTokenResult (env : Option String) (net : Except String HttpResponse)
    (parseErr : String) : ChargeResult :=
  match env with
  | none => ChargeResult.missingKey
  | some key =>
      if key = "" then ChargeResult.missingKey
      else
        match net with
        | Except.error m => ChargeResult.requestFailed m
        | Except.ok resp =>
            if resp.status = 200 then
              match pyJsonLoads resp.body with
              | none => ChargeResult.requestFailed parseErr
              | some (Json.obj fs) =>
                  ChargeResult.success (objSet fs "success" (Json.bool true))
              | some j => ChargeResult.unexpected (itemAssignErrMsg j)
            else ChargeResult.apiFailed resp.status resp.body

/-- JSON rendering of each `charge_token_tool` branch, exactly as the
source's `json.dumps` calls produce it (the missing-key branch has no
`indent`; every other branch uses `indent=2`). -/
def renderChargeResult : ChargeResult → String
  | ChargeResult.missingKey =>
      Json.dumps (Json.obj
        [("error", Json.str "SKYFIRE_SELLER_API_KEY environment variable is required"),
         ("success", Json.bool false)])
  | ChargeResult.success fs => Json.dumps2 (Json.obj fs)
  | ChargeResult.apiFailed code body =>
      Json.dumps2 (Json.obj
        [("error", Json.str ("API request failed with status " ++ toString code)),
         ("message", Json.str body),
         ("success", Json.bool false)])
  | ChargeResult.requestFailed m =>
      Json.dumps2 (Json.obj
        [("error", Json.str ("Request failed: " ++ m)), ("success", Json.bool false)])
  | ChargeResult.unexpected m =>
      Json.dumps2 (Json.obj
        [("error", Json.str ("Unexpected error: " ++ m)), ("success", Json.bool false)])

/-- The string returned by `charge_token_tool`. -/
def chargeTokenTool (env : Option String) (net : Except String HttpResponse)
    (parseErr : String) : String :=
  renderChargeResult (chargeTokenResult env net parseErr)

/-- The outbound requests issued by one `charge_token_tool` call: none
when the seller key is missing/empty (the function returns before
`requests.post`), exactly one otherwise. -/
def chargeRequestsIssued (env : Option String) (token amt : String) : List ChargeRequest :=
  match env with
  | none => []
  | some key =>
      if key = "" then []
      else [⟨"https://api.skyfire.xyz/api/v1/tokens/charge", key, token, amt⟩]

/-- Branch classifier used in statements below: true exactly on the
"Unexpected error" branch. -/
def ChargeResult.isUnexpected : ChargeResult → Bool
  | ChargeResult.unexpected _ => true
  | _ => false

/-- Branch classifier: true exactly on the success branch. -/
def ChargeResult.isSuccess : ChargeResult → Bool
  | ChargeResult.success _ => true
  | _ => false

/-- Branch classifier: true exactly on the transport-failure branch. -/
def ChargeResult.isRequestFailed : ChargeResult → Bool
  | ChargeResult.requestFailed _ => true
  | _ => false

/-- An item of a tool event's `content`, in one of the three shapes probed
by `_extract_name_and_args` (`utils/helpers.py`, lines 21-56): an object
with attributes, a mapping, or a JSON string.  `callId` is only readable
on the attribute shape (`FunctionExecutionResult`), `content` is that
shape's tool output field. -/
inductive EventItem where
  | attrShape (name : Option String) (arguments : Option Json) (callId : Option String)
      (content : Option String) : EventItem
  | dictShape (name : Option String) (arguments : Option Json) : EventItem
  | strShape (s : String) : EventItem

/-- Model of `_extract_name_and_args(item)` (`utils/helpers.py`, lines
21-56): attribute access, then mapping access, then JSON-parse of a
string item; a falsy (absent or empty) name falls through and the final
`return name, args` surfaces whatever the last applicable strategy read.
For the string shape, a `name` field that is not a non-empty string is
mapped to `none`: the caller immediately calls `.startswith` on it, so a
truthy non-string name raises `AttributeError` inside the caller's `try`
and the item is dropped — observationally the same as no name. -/
def extractNameAndArgs : EventItem → Option String × Option Json
  | EventItem.attrShape name args _ _ => (name, args)
  | EventItem.dictShape name args => (name, args)
  | EventItem.strShape s =>
      match pyJsonLoads s with
      | some (Json.obj fs) =>
          match fs.lookup "name" with
          | some (Json.str n) => (some n, fs.lookup "arguments")
          | _ => (none, none)
      | _ => (none, none)

/-- The `TOOL_DISPLAY_NAMES` table from `config/settings.py`. -/
def toolDisplayNames : List (String × String) :=
  [("real-time-search", "Real Time Search"),
   ("stock-market-data", "Stock Market Data"),
   ("research-papers-search", "Research Papers Search"),
   ("benzinga", "Benzinga"),
   ("sports-news", "Sports News"),
   ("lifestyle-news", "Lifestyle News"),
   ("iheartdogs-ai", "Iheartdogs AI"),
   ("iheartcats-ai", "Iheartcats AI"),
   ("one-green-planet", "One Green Planet"),
   ("wish-tv-ai", "Wish TV AI"),
   ("find-sellers", "Find Sellers"),
   ("create-kya-token", "Create KYA Token"),
   ("create-pay-token", "Create Pay Token"),
   ("create-kya-payment-token", "Create KYA Payment Token"),
   ("get-current-datetime", "Get Current Datetime")]

/-- Display-name lookup with fallback to the raw name
(`TOOL_DISPLAY_NAMES.get(tool_name, tool_name)`). -/
def displayName (n : String) : String :=
  (toolDisplayNames.lookup n).getD n

/-- One streaming wire event of the modular chat route (the `data:` JSON
payloads of `routes/chat.py`). -/
inductive WireEvent where
  | token (content agent : String) : WireEvent
  | message (content agent : String) : WireEvent
  | toolCall (toolName dispName status agent : String) (args : Option Json)
      (output : Option String) : WireEvent
  | handoff (fromAgent toAgent content : String) : WireEvent
  | completion (stopReason : String) : WireEvent
  | done : WireEvent

/-- One orchestrator stream chunk, as dispatched on `chunk.type` by
`stream_chat_response` (`routes/chat.py`, lines 95-189). -/
inductive Chunk where
  | handoffMsg (source target content : String) : Chunk
  | toolCallRequest (source : String) (items : List EventItem) : Chunk
  | toolCallExec (source : String) (items : List EventItem) : Chunk
  | streamingChunk (source content : String) : Chunk
  | textMessage (source content : String) : Chunk
  | taskResult (stopReason : String) : Chunk
  | other : Chunk

/-- Events emitted for one item of a `ToolCallRequestEvent`
(`routes/chat.py`, lines 105-124): emit a `calling` tool_call unless the
name is falsy or starts with `transfer_to_`. -/
def requestItemEvents (agent : String) (it : EventItem) : List WireEvent :=
  match extractNameAndArgs it with
  | (some n, args) =>
      if n ≠ "" ∧ pyStartsWith n "transfer_to_" = false then
        [WireEvent.toolCall n (displayName n) "calling" agent args none]
      else []
  | (none, _) => []

/-- Name resolution for one item of a `ToolCallExecutionEvent`
(`routes/chat.py`, lines 133-140): an item with both `name` and `call_id`
attributes is read directly, anything else goes through
`_extract_name_and_args`. -/
def execItemName (it : EventItem) : Option String :=
  match it with
  | EventItem.attrShape (some n) _ (some _) _ => some n
  | _ => (extractNameAndArgs it).1

/-- Tool output read from an execution item (`item.content` when
present). -/
def execItemOutput (it : EventItem) : Option String :=
  match it with
  | EventItem.attrShape _ _ _ c => c
  | _ => none

/-- Events emitted for one item of a `ToolCallExecutionEvent`
(`routes/chat.py`, lines 130-167): emit a `completed` tool_call unless
the name is falsy or starts with `transfer_to_`.  Model note: the source
reads a `tool_args` variable that is unbound on the `name`/`call_id`
shape (its value leaks from a previous loop iteration, or a `NameError`
suppresses the event); the model over-approximates by always emitting the
filtered event with the fallback-extracted arguments, a superset of what
the source can emit — conservative for the filtering property proved
below. -/
def execItemEvents (agent : String) (it : EventItem) : List WireEvent :=
  match execItemName it with
  | some n =>
      if n ≠ "" ∧ pyStartsWith n "transfer_to_" = false then
        [WireEvent.toolCall n (displayName n) "completed" agent
          (extractNameAndArgs it).2 (execItemOutput it)]
      else []
  | none => []

/-- Wire events produced for one orchestrator chunk by the dispatch of
`stream_chat_response` (`routes/chat.py`, lines 95-189). -/
def chunkEvents : Chunk → List WireEvent
  | Chunk.handoffMsg s t c => [WireEvent.handoff s t c]
  | Chunk.toolCallRequest src items => items.flatMap (requestItemEvents src)
  | Chunk.toolCallExec src items => items.flatMap (execItemEvents src)
  | Chunk.streamingChunk src c => if c = "" then [] else [WireEvent.token c src]
  | Chunk.textMessage src c =>
      if c ≠ "" ∧ pyStartsWith c "Transferred to" = false then [WireEvent.message c src]
      else []
  | Chunk.taskResult r => [WireEvent.completion r]
  | Chunk.other => []

/-- The full event stream of one chat turn: the per-chunk translations in
order, then the terminal `done` sentinel (`routes/chat.py`, lines
192-196). -/
def streamEvents (chunks : List Chunk) : List WireEvent :=
  chunks.flatMap chunkEvents ++ [WireEvent.done]

/-- The tool name carried by a `tool_call` wire event, `none` for every
other event kind. -/
def WireEvent.toolCallName : WireEvent → Option String
  | WireEvent.toolCall n _ _ _ _ _ => some n
  | _ => none

/-- Rendering of one history turn as worded by the amended claim: turns
whose role is neither `user` nor `assistant` are omitted, as are turns
with empty or whitespace-only content and internal `Transferring from …
to …` turns; the remaining turns render with their role label. -/
def specTurnLine (m : HistMsg) : Option String :=
  if m.role ≠ "user" ∧ m.role ≠ "assistant" then none
  else if pyStrip m.content = "" then none
  else if pyStartsWith m.content "Transferring from" = true ∧ pyContains m.content "to" = true
    then none
  else some ((if m.role = "user" then "User: " else "Assistant: ") ++ m.content)

/-- The built context as worded by the amended claim: the header line and
the rendered turns joined by newlines, then a blank line and
`Current user message: <message>`, then a blank line and the fixed
instruction sentence; an empty history yields the message unchanged. -/
def buildConversationContextSpec (msg : String) (hist : List HistMsg) : String :=
  match hist with
  | [] => msg
  | _ :: _ =>
      joinNl ("Previous conversation:" :: hist.filterMap specTurnLine) ++
        "\n\nCurrent user message: " ++ msg ++
        "\n\nPlease respond to the current user message, taking into account the conversation history above."

/-- The exact string `decode_jwt_tool` returns on a failure with message
`msg`. -/
def mkJwtErrorStr (msg : String) : String :=
  Json.dumps (Json.obj [("error", Json.str ("Failed to decode JWT: " ++ msg)),
    ("status", Json.str "error")])

/-- The failure message of a `decode_jwt_tool` run (empty on success). -/
def jwtFailMsg (tzOffset : Int) (token : String) : String :=
  match decodeJwtCore tzOffset token with
  | Except.error m => m
  | Except.ok _ => ""

/-- Field accessor on a successfully decoded payload. -/
def jwtPayloadField (tzOffset : Int) (token key : String) : Option Json :=
  match decodeJwtCore tzOffset token with
  | Except.ok (_, p) => p.lookup key
  | Except.error _ => none

/-- A concrete well-formed JWT: header `\x7b"alg":"HS256"\x7d`, payload
`\x7b"iat":0\x7d`, opaque signature. -/
def sampleJwt : String :=
  "eyJhbGciOiJIUzI1NiJ9.eyJpYXQiOjB9.sig"

/-- Sample state for the C5 witness: session `a` has been idle for exactly
`session_timeout + 1` seconds, session `b` for one second less. -/
def cleanupSampleState : SessionState :=
  ⟨["a", "b"], [("a", ⟨0, 0, 0⟩), ("b", ⟨0, 1, 2⟩)]⟩

/-- Sample full table for the C4 witness: 100 sessions with distinct
activity times. -/
def evictionSampleState : SessionState :=
  ⟨(List.range 100).map (fun i => "s" ++ toString i),
   (List.range 100).map (fun i => ("s" ++ toString i, ⟨0, (i : Int), 0⟩))⟩

/-- Claim C8: when the `SKYFIRE_SELLER_API_KEY` environment variable is
absent, `charge_token_tool` — for any token and charge_amount arguments
and any state of the network — returns exactly the JSON text
`\x7b"error": "SKYFIRE_SELLER_API_KEY environment variable is required",
"success": false\x7d` and issues no request to the charge endpoint. -/
theorem charge_token_missing_key (net : Except String HttpResponse)
    (token amt parseErr : String) :
    chargeTokenTool none net parseErr =
      "\x7b\"error\": \"SKYFIRE_SELLER_API_KEY environment variable is required\", \"success\": false\x7d" ∧
    chargeRequestsIssued none token amt = [] :=
  ⟨rfl, rfl⟩

/-- Helper: every `tool_call` event emitted for a `ToolCallRequestEvent`
item carries a name that does not start with `transfer_to_`. -/
theorem requestItemEvents_no_transfer (agent : String) (it : EventItem) (e : WireEvent)
    (he : e ∈ requestItemEvents agent it) (n : String) (hn : e.toolCallName = some n) :
    pyStartsWith n "transfer_to_" = false := by
  unfold requestItemEvents at he
  rcases hx : extractNameAndArgs it with ⟨name, args⟩
  rw [hx] at he
  cases name with
  | none => simp at he
  | some m =>
      simp only [] at he
      by_cases hcond : m ≠ "" ∧ pyStartsWith m "transfer_to_" = false
      · rw [if_pos hcond] at he
        rcases List.mem_singleton.mp he with rfl
        obtain rfl : m = n := by
          simpa [WireEvent.toolCallName] using hn
        exact hcond.2
      · rw [if_neg hcond] at he
        simp at he

/-- Helper: every `tool_call` event emitted for a `ToolCallExecutionEvent`
item carries a name that does not start with `transfer_to_`. -/
theorem execItemEvents_no_transfer (agent : String) (it : EventItem) (e : WireEvent)
    (he : e ∈ execItemEvents agent it) (n : String) (hn : e.toolCallName = some n) :
    pyStartsWith n "transfer_to_" = false := by
  unfold execItemEvents at he
  rcases hx : execItemName it with _ | m
  · rw [hx] at he; simp at he
  · rw [hx] at he
    simp only [] at he
    by_cases hcond : m ≠ "" ∧ pyStartsWith m "transfer_to_" = false
    · rw [if_pos hcond] at he
      rcases List.mem_singleton.mp he with rfl
      obtain rfl : m = n := by
        simpa [WireEvent.toolCallName] using hn
      exact hcond.2
    · rw [if_neg hcond] at he
      simp at he

/-- Claim C9: in the modular chat route's stream translator, no
`tool_call` wire event of a chat turn — whether `calling` or `completed`
— carries a tool name beginning with `transfer_to_`; the handoff
pseudo-tools never surface as `tool_call` events. -/
theorem stream_no_transfer_tool_calls (chunks : List Chunk) (e : WireEvent)
    (he : e ∈ streamEvents chunks) (n : String) (hn : e.toolCallName = some n) :
    pyStartsWith n "transfer_to_" = false := by
  unfold streamEvents at he
  rcases List.mem_append.mp he with h | h
  · obtain ⟨c, _, hce⟩ := List.mem_flatMap.mp h
    cases c with
    | handoffMsg s t ct =>
        rcases List.mem_singleton.mp hce with rfl; simp [WireEvent.toolCallName] at hn
    | toolCallRequest src items =>
        obtain ⟨it, _, hie⟩ := List.mem_flatMap.mp hce
        exact requestItemEvents_no_transfer src it e hie n hn
    | toolCallExec src items =>
        obtain ⟨it, _, hie⟩ := List.mem_flatMap.mp hce
        exact execItemEvents_no_transfer src it e hie n hn
    | streamingChunk src ct =>
        simp only [chunkEvents] at hce
        split at hce
        · simp at hce
        · rcases List.mem_singleton.mp hce with rfl; simp [WireEvent.toolCallName] at hn
    | textMessage src ct =>
        simp only [chunkEvents] at hce
        split at hce
        · rcases List.mem_singleton.mp hce with rfl; simp [WireEvent.toolCallName] at hn
        · simp at hce
    | taskResult r =>
        rcases List.mem_singleton.mp hce with rfl; simp [WireEvent.toolCallName] at hn
    | other => simp [chunkEvents] at hce
  · rcases List.mem_singleton.mp h with rfl
    simp [WireEvent.toolCallName] at hn

/-- Witness for C9 at a concrete one-chunk stream containing one real tool
call. -/
theorem stream_no_transfer_tool_calls_witness :
    (WireEvent.toolCall "real-time-search" "Real Time Search" "calling" "a" none
        none).toolCallName = some "real-time-search" ∧
    pyStartsWith "real-time-search" "transfer_to_" = false := by
  refine ⟨rfl, stream_no_transfer_tool_calls
    [Chunk.toolCallRequest "a" [EventItem.attrShape (some "real-time-search") none none none]]
    (WireEvent.toolCall "real-time-search" "Real Time Search" "calling" "a" none none)
    ?_ "real-time-search" rfl⟩
  exact List.Mem.head _

/-- Claim C6: whenever `skyfire_pay_id` does not split into exactly three
dot-separated segments, or a non-empty `mcp_url` lacks an http/https
scheme or a non-empty host, `get_dappier_resources_pricing` returns an
envelope with `status = "error"` and no `data` field (the pricing payload
is not included). -/
theorem pricing_invalid_inputs (mcpUrl payId : String)
    (h : (pySplitDot payId).length ≠ 3 ∨
      (mcpUrl ≠ "" ∧
        ¬ ((pyUrlScheme mcpUrl = "http" ∨ pyUrlScheme mcpUrl = "https") ∧
           pyUrlNetloc mcpUrl ≠ ""))) :
    (getDappierResourcesPricing mcpUrl payId).lookup "status" = some (Json.str "error") ∧
    (getDappierResourcesPricing mcpUrl payId).lookup "data" = none := by
  unfold getDappierResourcesPricing
  by_cases h1 : payId = "" ∨ (pySplitDot payId).length ≠ 3
  · rw [if_pos h1]
    exact ⟨rfl, rfl⟩
  · rw [if_neg h1]
    push_neg at h1
    rcases h with h | ⟨hne, hbad⟩
    · exact absurd h1.2 h
    · rw [if_neg hne]
      have hcond : ¬ (pyUrlScheme mcpUrl = "http" ∨ pyUrlScheme mcpUrl = "https") ∨
          pyUrlNetloc mcpUrl = "" := by
        by_cases hs : pyUrlScheme mcpUrl = "http" ∨ pyUrlScheme mcpUrl = "https"
        · right
          by_contra hnl
          exact hbad ⟨hs, hnl⟩
        · left; exact hs
      rw [if_pos hcond]
      exact ⟨rfl, rfl⟩

/-- Witness for C6 at the concrete invalid pay id `"ab"` (one segment). -/
theorem pricing_invalid_inputs_witness :
    (pySplitDot "ab").length ≠ 3 ∧
    ((getDappierResourcesPricing "" "ab").lookup "status" = some (Json.str "error") ∧
     (getDappierResourcesPricing "" "ab").lookup "data" = none) :=
  ⟨by decide, pricing_invalid_inputs "" "ab" (Or.inl (by decide))⟩

/-- The delete loop of the cleanup sweep filters both tables by the
collected key list. -/
theorem foldl_delete_spec (ks : List String) (st : SessionState) :
    (ks.foldl deleteSession st).agents = st.agents.filter (fun a => decide (a ∉ ks)) ∧
    (ks.foldl deleteSession st).metadata =
      st.metadata.filter (fun e => decide (e.1 ∉ ks)) := by
  induction ks generalizing st with
  | nil => simp
  | cons k ks ih =>
      obtain ⟨ha, hm⟩ := ih (deleteSession st k)
      rw [List.foldl_cons]
      constructor
      · rw [ha]
        show (st.agents.filter _).filter _ = _
        rw [List.filter_filter]
        apply List.filter_congr
        intro a _
        simp [List.mem_cons, not_or, Bool.and_comm]
      · rw [hm]
        show (st.metadata.filter _).filter _ = _
        rw [List.filter_filter]
        apply List.filter_congr
        intro e _
        simp [List.mem_cons, not_or, Bool.and_comm]

/-- Claim C5: a cleanup sweep removes exactly the sessions whose idle time
`now - last_activity` exceeds the 3600-second timeout (in particular any
session idle for `session_timeout + 1` seconds), returns the number of
sessions removed, and afterwards every listed session is unexpired — so
the removed sessions are absent from subsequent listings. -/
theorem cleanup_expired_spec (now : Int) (st : SessionState)
    (hnd : (st.metadata.map Prod.fst).Nodup) :
    (cleanupExpiredSessions now st).1 =
      (st.metadata.filter (fun e => decide (sessionTimeout < now - e.2.lastActivity))).length ∧
    (cleanupExpiredSessions now st).2.metadata =
      st.metadata.filter (fun e => decide (now - e.2.lastActivity ≤ sessionTimeout)) ∧
    ∀ e ∈ (cleanupExpiredSessions now st).2.metadata,
      now - e.2.lastActivity ≤ sessionTimeout := by
  have hcount : (cleanupExpiredSessions now st).1 =
      (st.metadata.filter (fun e => decide (sessionTimeout < now - e.2.lastActivity))).length := by
    simp [cleanupExpiredSessions, expiredKeys]
  have hmeta : (cleanupExpiredSessions now st).2.metadata =
      st.metadata.filter (fun e => decide (now - e.2.lastActivity ≤ sessionTimeout)) := by
    show (List.foldl deleteSession st _).metadata = _
    rw [(foldl_delete_spec (expiredKeys now st.metadata) st).2]
    apply List.filter_congr
    intro e he
    have : (e.1 ∉ expiredKeys now st.metadata) ↔
        (now - e.2.lastActivity ≤ sessionTimeout) := by
      constructor
      · intro hnotin
        by_contra hgt
        push_neg at hgt
        apply hnotin
        unfold expiredKeys
        exact List.mem_map.mpr ⟨e, List.mem_filter.mpr ⟨he, by simpa using hgt⟩, rfl⟩
      · intro hle hin
        unfold expiredKeys at hin
        obtain ⟨e', he', hfst⟩ := List.mem_map.mp hin
        obtain ⟨hmem', hp'⟩ := List.mem_filter.mp he'
        have : e' = e := List.inj_on_of_nodup_map hnd hmem' he hfst
        rw [this] at hp'
        simp at hp'
        omega
    exact decide_eq_decide.mpr this
  refine ⟨hcount, hmeta, ?_⟩
  intro e he
  rw [hmeta] at he
  simpa using List.of_mem_filter he

/-- Witness for C5 at time 3601: the sweep removes exactly session `a`
(idle 3601 > 3600) and reports one removal. -/
theorem cleanup_expired_spec_witness :
    ((cleanupSampleState.metadata.map Prod.fst).Nodup) ∧
    (cleanupExpiredSessions 3601 cleanupSampleState).1 = 1 ∧
    (cleanupExpiredSessions 3601 cleanupSampleState).2.metadata = [("b", ⟨0, 1, 2⟩)] := by
  refine ⟨by decide, ?_, ?_⟩
  · rw [(cleanup_expired_spec 3601 cleanupSampleState (by decide)).1]
    rfl
  · rw [(cleanup_expired_spec 3601 cleanupSampleState (by decide)).2.1]
    rfl

/-- Python's `min` fold returns an element of the scanned list that is
less-or-equal to every element (first-in-order on ties). -/
theorem foldl_minBy_spec (e : String × SessMeta) (rest : List (String × SessMeta)) :
    (rest.foldl (fun b a => if a.2.lastActivity < b.2.lastActivity then a else b) e) ∈
      e :: rest ∧
    ∀ x ∈ e :: rest,
      (rest.foldl (fun b a => if a.2.lastActivity < b.2.lastActivity then a else b)
          e).2.lastActivity ≤ x.2.lastActivity := by
  induction rest generalizing e with
  | nil =>
      refine ⟨List.mem_singleton.mpr rfl, ?_⟩
      intro x hx
      rcases List.mem_singleton.mp hx with rfl
      exact le_refl _
  | cons a rest ih =>
      obtain ⟨h1, h2⟩ := ih (if a.2.lastActivity < e.2.lastActivity then a else e)
      rw [List.foldl_cons]
      constructor
      · rcases List.mem_cons.mp h1 with heq | hmem
        · rw [heq]
          split
          · exact List.mem_cons_of_mem _ (List.mem_cons_self _ _)
          · exact List.mem_cons_self _ _
        · exact List.mem_cons_of_mem _ (List.mem_cons_of_mem _ hmem)
      · intro x hx
        have hhead := h2 _ (List.mem_cons_self _ _)
        rcases List.mem_cons.mp hx with rfl | hx2
        · refine le_trans hhead ?_
          split
          · exact le_of_lt (by assumption)
          · exact le_refl _
        · rcases List.mem_cons.mp hx2 with rfl | hx3
          · refine le_trans hhead ?_
            split
            · exact le_refl _
            · exact le_of_not_lt (by assumption)
          · exact h2 _ (List.mem_cons_of_mem _ hx3)

/-- The eviction pick of `create_session`: on a non-empty metadata table,
`oldestSessionKey` returns the key of a binding whose `last_activity` is
minimal. -/
theorem oldestSessionKey_spec (md : List (String × SessMeta)) (hne : md ≠ []) :
    ∃ k m, oldestSessionKey md = some k ∧ (k, m) ∈ md ∧
      ∀ x ∈ md, m.lastActivity ≤ x.2.lastActivity := by
  match md with
  | [] => exact absurd rfl hne
  | e :: rest =>
      obtain ⟨h1, h2⟩ := foldl_minBy_spec e rest
      refine ⟨(rest.foldl (fun b a => if a.2.lastActivity < b.2.lastActivity then a else b) e).1,
        (rest.foldl (fun b a => if a.2.lastActivity < b.2.lastActivity then a else b) e).2,
        ?_, ?_, ?_⟩
      · rfl
      · simpa using h1
      · exact h2

/-- Dict assignment appends when the key is fresh. -/
theorem metaSet_append (md : List (String × SessMeta)) (k : String) (v : SessMeta)
    (h : ∀ e ∈ md, e.1 ≠ k) : metaSet md k v = md ++ [(k, v)] := by
  induction md with
  | nil => rfl
  | cons e rest ih =>
      unfold metaSet
      rw [if_neg (h e (List.mem_cons_self _ _))]
      rw [ih (fun x hx => h x (List.mem_cons_of_mem _ hx))]
      rfl

/-- Removing one present key from a table with unique keys shortens it by
exactly one entry. -/
theorem filter_ne_key_length (md : List (String × SessMeta)) (k : String) (m : SessMeta)
    (hmem : (k, m) ∈ md) (hnd : (md.map Prod.fst).Nodup) :
    (md.filter (fun e => decide (e.1 ≠ k))).length = md.length - 1 := by
  induction md with
  | nil => simp at hmem
  | cons e rest ih =>
      have hnd' : (rest.map Prod.fst).Nodup := by
        simp only [List.map_cons] at hnd
        exact (List.nodup_cons.mp hnd).2
      have hhead : e.1 ∉ rest.map Prod.fst := by
        simp only [List.map_cons] at hnd
        exact (List.nodup_cons.mp hnd).1
      rcases List.mem_cons.mp hmem with heq | hmem'
      · have hek : e.1 = k := by rw [← heq]
        have hrest : rest.filter (fun x => decide (x.1 ≠ k)) = rest := by
          apply List.filter_eq_self.mpr
          intro x hx
          simp only [decide_eq_true_eq]
          intro hxk
          rw [hek] at hhead
          exact hhead (List.mem_map.mpr ⟨x, hx, hxk⟩)
        rw [List.filter_cons_of_neg (by simp [hek])]
        rw [hrest]
        simp
      · have hke : e.1 ≠ k := by
          intro hek
          rw [hek] at hhead
          exact hhead (List.mem_map.mpr ⟨(k, m), hmem', rfl⟩)
        have hlen := ih hmem' hnd'
        have hpos : 1 ≤ rest.length := List.length_pos.mpr (by rintro rfl; simp at hmem')
        rw [List.filter_cons_of_pos (by simp [hke])]
        simp only [List.length_cons, hlen]
        omega

/-- Removing one present element from a duplicate-free key list shortens
it by exactly one. -/
theorem filter_ne_elem_length (l : List String) (k : String)
    (hmem : k ∈ l) (hnd : l.Nodup) :
    (l.filter (fun a => decide (a ≠ k))).length = l.length - 1 := by
  induction l with
  | nil => simp at hmem
  | cons b rest ih =>
      have hnd' : rest.Nodup := (List.nodup_cons.mp hnd).2
      have hhead : b ∉ rest := (List.nodup_cons.mp hnd).1
      rcases List.mem_cons.mp hmem with heq | hmem'
      · have hrest : rest.filter (fun x => decide (x ≠ k)) = rest := by
          apply List.filter_eq_self.mpr
          intro x hx
          simp only [decide_eq_true_eq]
          intro hxk
          rw [hxk] at hx
          rw [heq] at hx
          exact hhead hx
        rw [List.filter_cons_of_neg (by simp [heq])]
        rw [hrest]
        simp
      · have hbk : b ≠ k := by
          intro hbk
          rw [hbk] at hhead
          exact hhead hmem'
        have hlen := ih hmem' hnd'
        have hpos : 1 ≤ rest.length := List.length_pos.mpr (by rintro rfl; simp at hmem')
        rw [List.filter_cons_of_pos (by simp [hbk])]
        simp only [List.length_cons, hlen]
        omega

/-- Claim C4: when `create_session` is called on a consistent session
table already holding `max_sessions = 100` live (unexpired) sessions with
distinct activity times, it removes exactly the single session whose
`last_activity` is smallest, then records the fresh session, so that
afterwards the metadata table again holds exactly 100 sessions and the
agents table 99 (≤ 100; the new agent is attached later by
`get_or_create`). -/
theorem create_session_eviction (now : Int) (newId : String) (st : SessionState)
    (hcons : st.agents = st.metadata.map Prod.fst)
    (hfull : st.metadata.length = maxSessions)
    (hfresh : ∀ e ∈ st.metadata, now - e.2.lastActivity ≤ sessionTimeout)
    (hkeys : (st.metadata.map Prod.fst).Nodup)
    (hla : (st.metadata.map (fun e => e.2.lastActivity)).Nodup)
    (hnew : newId ∉ st.metadata.map Prod.fst) :
    (∃ k m, (k, m) ∈ st.metadata ∧
      (∀ e ∈ st.metadata, m.lastActivity ≤ e.2.lastActivity) ∧
      (∀ e ∈ st.metadata, e.1 ≠ k → m.lastActivity < e.2.lastActivity) ∧
      (createSession now newId st).metadata =
        st.metadata.filter (fun e => decide (e.1 ≠ k)) ++ [(newId, ⟨now, now, 0⟩)]) ∧
    (createSession now newId st).metadata.length = maxSessions ∧
    (createSession now newId st).agents.length = maxSessions - 1 := by
  have hek : expiredKeys now st.metadata = [] := by
    unfold expiredKeys
    have : st.metadata.filter
        (fun e => decide (sessionTimeout < now - e.2.lastActivity)) = [] := by
      apply List.filter_eq_nil_iff.mpr
      intro e he
      simp only [decide_eq_true_eq, not_lt]
      exact hfresh e he
    rw [this]
    rfl
  have hclean : (cleanupExpiredSessions now st).2 = st := by
    unfold cleanupExpiredSessions
    rw [hek]
    rfl
  have hmdne : st.metadata ≠ [] := by
    intro h0
    rw [h0] at hfull
    simp [maxSessions] at hfull
  obtain ⟨k, m, hok, hmem, hmin⟩ := oldestSessionKey_spec st.metadata hmdne
  have hcap : maxSessions ≤ st.agents.length := by
    rw [hcons, List.length_map, hfull]
  have hfilterfresh : ∀ e ∈ st.metadata.filter (fun e => decide (e.1 ≠ k)), e.1 ≠ newId := by
    intro e he hkeq
    apply hnew
    rw [← hkeq]
    exact List.mem_map.mpr ⟨e, (List.mem_filter.mp he).1, rfl⟩
  have hcs : createSession now newId st =
      ⟨st.agents.filter (fun a => decide (a ≠ k)),
       st.metadata.filter (fun e => decide (e.1 ≠ k)) ++ [(newId, ⟨now, now, 0⟩)]⟩ := by
    unfold createSession
    simp only [hclean]
    rw [if_pos hcap]
    rw [hok]
    unfold deleteSession
    rw [metaSet_append _ _ _ hfilterfresh]
  have hkin : k ∈ st.agents := by
    rw [hcons]
    exact List.mem_map.mpr ⟨(k, m), hmem, rfl⟩
  have handnodup : st.agents.Nodup := by
    rw [hcons]
    exact hkeys
  refine ⟨⟨k, m, hmem, hmin, ?_, by rw [hcs]⟩, ?_, ?_⟩
  · intro e he hne
    rcases eq_or_lt_of_le (hmin e he) with heq | hlt
    · exfalso
      have hkm : (k, m) = e :=
        List.inj_on_of_nodup_map hla hmem he (by simpa using heq)
      apply hne
      rw [← hkm]
    · exact hlt
  · rw [hcs]
    simp only [List.length_append, List.length_singleton]
    rw [filter_ne_key_length st.metadata k m hmem hkeys, hfull]
    decide
  · rw [hcs]
    show (st.agents.filter _).length = _
    rw [filter_ne_elem_length st.agents k hkin handnodup]
    rw [hcons, List.length_map, hfull]

/-- Witness for C4: creating a 101st session at a full table of 100 live
sessions leaves 100 metadata entries and 99 agents. -/
theorem create_session_eviction_witness :
    evictionSampleState.metadata.length = maxSessions ∧
    (createSession 3600 "fresh" evictionSampleState).metadata.length = maxSessions ∧
    (createSession 3600 "fresh" evictionSampleState).agents.length = maxSessions - 1 := by
  have h := create_session_eviction 3600 "fresh" evictionSampleState (by decide) (by decide)
    (by decide) (by decide) (by decide) (by decide)
  exact ⟨by decide, h.2.1, h.2.2⟩

/-- Counterexample to C3 as stated, at history `[(role "system",
content "A")]` and message `"C"`: the code drops a turn whose role is
neither `user` nor `assistant` (it is not rendered as a user turn), and
the built context does not end with `Current user message: C` (a fixed
instruction line follows it). -/
theorem build_context_claim_counterexample :
    pyContains (buildConversationContext "C" [⟨"system", "A"⟩]) "User: A" = false ∧
    pyEndsWith (buildConversationContext "C" [⟨"system", "A"⟩]) "Current user message: C"
      = false := by
  constructor
  · rfl
  · rfl

/-- The implementation's per-turn rendering agrees with the amended
claim's wording. -/
theorem renderTurn_eq_spec (m : HistMsg) : renderTurn m = specTurnLine m := by
  unfold renderTurn specTurnLine
  by_cases h1 : pyStrip m.content = "" <;>
    by_cases h2 : pyStartsWith m.content "Transferring from" = true <;>
      by_cases h3 : pyContains m.content "to" = true <;>
        by_cases h4 : m.role = "user" <;>
          by_cases h5 : m.role = "assistant" <;>
            simp_all

/-- Joining a list extended by one more part appends a newline and the
part. -/
theorem joinNl_append_singleton (l : List String) (a : String) (h : l ≠ []) :
    joinNl (l ++ [a]) = joinNl l ++ "\n" ++ a := by
  induction l with
  | nil => cases h rfl
  | cons x rest ih =>
      cases rest with
      | nil => rfl
      | cons y t =>
          have hy := ih (by simp)
          show x ++ "\n" ++ joinNl ((y :: t) ++ [a]) = x ++ "\n" ++ joinNl (y :: t) ++ "\n" ++ a
          rw [hy]
          simp [String.append_assoc]

/-- Claim C3 (amended): `build_conversation_context` returns the message
unchanged on an absent/empty history, and otherwise produces exactly the
header line, the rendered turns — `User:`/`Assistant:` lines, with
non-user/non-assistant turns, empty or whitespace-only turns, and
`Transferring from … to …` turns omitted — then a blank line,
`Current user message: <message>`, a blank line and the fixed instruction
sentence. -/
theorem build_conversation_context_spec (msg : String) (hist : List HistMsg) :
    buildConversationContext msg hist = buildConversationContextSpec msg hist := by
  cases hist with
  | nil => rfl
  | cons m rest =>
      unfold buildConversationContext buildConversationContextSpec
      rw [if_neg (by simp : ¬ (m :: rest).isEmpty = true)]
      rw [show renderTurn = specTurnLine from funext renderTurn_eq_spec]
      rw [show (["\nCurrent user message: " ++ msg,
           "\nPlease respond to the current user message, taking into account the conversation history above."] : List String) =
         ["\nCurrent user message: " ++ msg] ++
         ["\nPlease respond to the current user message, taking into account the conversation history above."] from rfl]
      rw [← List.append_assoc]
      rw [joinNl_append_singleton _ _ (by simp)]
      rw [joinNl_append_singleton _ _ (by simp)]
      simp only [String.append_assoc]
      rw [← String.append_assoc ("\n" : String) "\nCurrent user message: "]
      rw [show ("\n" : String) ++ "\nCurrent user message: " = "\n\nCurrent user message: " from rfl]
      rw [show ("\n" : String) ++ "\nPlease respond to the current user message, taking into account the conversation history above." = "\n\nPlease respond to the current user message, taking into account the conversation history above." from rfl]

/-- A JWT segment whose base64url decode or JSON parse fails makes
`jwtSegmentDecode` fail. -/
theorem jwtSegmentDecode_error_of (seg : String)
    (h : pyUrlsafeB64Decode (jwtPad seg) = none ∨
      (∃ bs, pyUrlsafeB64Decode (jwtPad seg) = some bs ∧ pyJsonLoadsBytes bs = none)) :
    ∃ m, jwtSegmentDecode seg = Except.error m := by
  rcases h with hb | ⟨bs, hbs, hj⟩
  · exact ⟨b64ErrMsg (jwtPad seg), by simp only [jwtSegmentDecode, hb]⟩
  · unfold pyJsonLoadsBytes at hj
    rcases hu : pyDecodeJsonBytes bs with _ | s
    · exact ⟨unicodeErrMsg, by simp only [jwtSegmentDecode, hbs, hu]⟩
    · rw [hu] at hj
      simp only [Option.some_bind] at hj
      exact ⟨jsonErrMsg, by simp only [jwtSegmentDecode, hbs, hu, hj]⟩

/-- A failing header or payload segment makes the whole decode fail. -/
theorem decodeJwtCore_error_of_segments (tzOffset : Int) (token hd p sig : String)
    (hsp : pySplitDot token = [hd, p, sig])
    (h : (∃ m, jwtSegmentDecode hd = Except.error m) ∨
         (∃ m, jwtSegmentDecode p = Except.error m)) :
    ∃ m, decodeJwtCore tzOffset token = Except.error m := by
  rcases hh : jwtSegmentDecode hd with mh | jh
  · exact ⟨mh, by simp only [decodeJwtCore, hsp, hh]⟩
  · rcases hp : jwtSegmentDecode p with mp | jp
    · exact ⟨mp, by simp only [decodeJwtCore, hsp, hh, hp]⟩
    · rcases h with ⟨m1, hm1⟩ | ⟨m2, hm2⟩
      · rw [hh] at hm1
        cases hm1
      · rw [hp] at hm2
        cases hm2

/-- Claim C7: for every input that is not a well-formed JWT — a segment
count other than 3, a header or payload segment whose (padded) base64url
decode fails, or decoded bytes that are not valid JSON —
`decode_jwt_tool` returns the JSON text `\x7b"error": "Failed to decode
JWT: <message>", "status": "error"\x7d` (and, being a total function,
never raises past its own boundary). -/
theorem decode_jwt_error_shape (tzOffset : Int) (token : String)
    (h : (pySplitDot token).length ≠ 3 ∨
      (∃ hd p sig, pySplitDot token = [hd, p, sig] ∧
        (pyUrlsafeB64Decode (jwtPad hd) = none ∨
         pyUrlsafeB64Decode (jwtPad p) = none ∨
         (∃ bs, pyUrlsafeB64Decode (jwtPad hd) = some bs ∧ pyJsonLoadsBytes bs = none) ∨
         (∃ bs, pyUrlsafeB64Decode (jwtPad p) = some bs ∧ pyJsonLoadsBytes bs = none)))) :
    decodeJwtTool tzOffset token = mkJwtErrorStr (jwtFailMsg tzOffset token) := by
  have key : ∀ m, decodeJwtCore tzOffset token = Except.error m →
      decodeJwtTool tzOffset token = mkJwtErrorStr (jwtFailMsg tzOffset token) := by
    intro m hm
    unfold decodeJwtTool jwtFailMsg mkJwtErrorStr
    rw [hm]
  rcases h with h3 | ⟨hd, p, sig, hsp, hseg⟩
  · rcases hsp : pySplitDot token with _ | ⟨a, _ | ⟨b, _ | ⟨c, _ | ⟨d, t⟩⟩⟩⟩
    · exact key _ (by unfold decodeJwtCore; rw [hsp]; rfl)
    · exact key _ (by unfold decodeJwtCore; rw [hsp]; rfl)
    · exact key _ (by unfold decodeJwtCore; rw [hsp]; rfl)
    · rw [hsp] at h3
      simp at h3
    · exact key _ (by unfold decodeJwtCore; rw [hsp]; rfl)
  · have hfail : ∃ m, decodeJwtCore tzOffset token = Except.error m := by
      apply decodeJwtCore_error_of_segments tzOffset token hd p sig hsp
      rcases hseg with h1 | h2 | h3 | h4
      · exact Or.inl (jwtSegmentDecode_error_of hd (Or.inl h1))
      · exact Or.inr (jwtSegmentDecode_error_of p (Or.inl h2))
      · exact Or.inl (jwtSegmentDecode_error_of hd (Or.inr h3))
      · exact Or.inr (jwtSegmentDecode_error_of p (Or.inr h4))
    obtain ⟨m, hm⟩ := hfail
    exact key m hm

/-- Witness for C7 at the malformed token `"a.b.c"` (header segment `"a"`
pads to `"a==="`, whose single data character is rejected by the base64
decoder). -/
theorem decode_jwt_error_shape_witness :
    pyUrlsafeB64Decode (jwtPad "a") = none ∧
    decodeJwtTool 0 "a.b.c" = mkJwtErrorStr (jwtFailMsg 0 "a.b.c") :=
  ⟨rfl, decode_jwt_error_shape 0 "a.b.c" (Or.inr ⟨"a", "b", "c", rfl, Or.inl rfl⟩)⟩

/-- Claim C1 (code bug, evaluated at the failing input): on a host whose
local timezone is UTC+01:00 (`tzOffset = 3600`), decoding a token whose
payload has `iat = 0` yields `iat_readable = "1970-01-01 01:00:00 UTC"`,
the *local* civil time with a hard-coded "UTC" label — which differs from
the true UTC rendering `"1970-01-01 00:00:00 UTC"` required by the claim.
The slip is `datetime.fromtimestamp` (local time) where
`datetime.utcfromtimestamp` matches the format string's own "UTC" label. -/
theorem decode_jwt_utc_label_bug :
    jwtPayloadField 3600 sampleJwt "iat_readable" =
      some (Json.str "1970-01-01 01:00:00 UTC") ∧
    fromtimestampFormatted 0 0 = "1970-01-01 00:00:00 UTC" ∧
    ("1970-01-01 01:00:00 UTC" : String) ≠ "1970-01-01 00:00:00 UTC" :=
  ⟨rfl, rfl, by decide⟩

/-- Counterexample to C10 as stated, at a 200 response with body
`"not json"` and a present seller key (the message CPython computes for
this body is `Expecting value: line 1 column 1 (char 0)`): the tool's
result is the `Request failed: …` shape (requests' `JSONDecodeError` is a
`RequestException`, caught by the first handler), not the claimed
`Unexpected error: …` shape. -/
theorem charge_token_unexpected_counterexample :
    (chargeTokenResult (some "sk-key") (Except.ok ⟨200, "not json"⟩)
      "Expecting value: line 1 column 1 (char 0)").isUnexpected = false ∧
    (chargeTokenResult (some "sk-key") (Except.ok ⟨200, "not json"⟩)
      "Expecting value: line 1 column 1 (char 0)").isRequestFailed = true ∧
    pyStartsWith (chargeTokenTool (some "sk-key") (Except.ok ⟨200, "not json"⟩)
      "Expecting value: line 1 column 1 (char 0)")
      "\x7b\n  \"error\": \"Unexpected error: " = false ∧
    pyStartsWith (chargeTokenTool (some "sk-key") (Except.ok ⟨200, "not json"⟩)
      "Expecting value: line 1 column 1 (char 0)")
      "\x7b\n  \"error\": \"Request failed: " = true := by
  refine ⟨rfl, rfl, by decide, by decide⟩

/-- Claim C10 (amended): with a present seller key, `charge_token_tool`
is total over response outcomes; an HTTP 200 response whose body is not
valid JSON yields the JSON string `\x7b"error": "Request failed:
<message>", "success": false\x7d` (requests ≥ 2.27 raises its own
`JSONDecodeError`, a `RequestException`) rather than propagating the
parse exception — and only a 200 response whose body parses as a JSON
object reaches the success branch that injects `success: true`;
`parseErr` ranges over every message the raised `JSONDecodeError` may
carry. -/
theorem charge_token_json_outcomes (key : String) (hk : key ≠ "")
    (net : Except String HttpResponse) (parseErr : String) :
    ((chargeTokenResult (some key) net parseErr).isSuccess = true ↔
      ∃ resp fs, net = Except.ok resp ∧ resp.status = 200 ∧
        pyJsonLoads resp.body = some (Json.obj fs)) ∧
    (∀ resp, net = Except.ok resp → resp.status = 200 → pyJsonLoads resp.body = none →
      chargeTokenTool (some key) net parseErr =
        Json.dumps2 (Json.obj [("error", Json.str ("Request failed: " ++ parseErr)),
          ("success", Json.bool false)])) := by
  simp only [chargeTokenTool]
  cases net with
  | error m =>
      simp only [chargeTokenResult]
      rw [if_neg hk]
      constructor
      · constructor
        · intro h
          simp [ChargeResult.isSuccess] at h
        · rintro ⟨resp, fs, heq, _, _⟩
          cases heq
      · intro resp heq
        cases heq
  | ok resp =>
      simp only [chargeTokenResult]
      rw [if_neg hk]
      by_cases hs : resp.status = 200
      · rw [if_pos hs]
        rcases hl : pyJsonLoads resp.body with _ | j
        · constructor
          · constructor
            · intro h
              simp [ChargeResult.isSuccess] at h
            · rintro ⟨resp2, fs, heq, _, hload⟩
              injection heq with he
              rw [← he, hl] at hload
              cases hload
          · intro resp2 heq _ _
            injection heq with he
            subst he
            rfl
        · cases j with
          | obj fs =>
              constructor
              · constructor
                · intro _
                  exact ⟨resp, fs, rfl, hs, hl⟩
                · intro _
                  rfl
              · intro resp2 heq _ hnone
                injection heq with he
                rw [← he, hl] at hnone
                cases hnone
          | null =>
              refine ⟨⟨fun h => by simp [ChargeResult.isSuccess] at h, ?_⟩, ?_⟩
              · rintro ⟨resp2, fs, heq, _, hload⟩
                injection heq with he
                rw [← he, hl] at hload
                cases hload
              · intro resp2 heq _ hnone
                injection heq with he
                rw [← he, hl] at hnone
                cases hnone
          | bool b =>
              refine ⟨⟨fun h => by simp [ChargeResult.isSuccess] at h, ?_⟩, ?_⟩
              · rintro ⟨resp2, fs, heq, _, hload⟩
                injection heq with he
                rw [← he, hl] at hload
                cases hload
              · intro resp2 heq _ hnone
                injection heq with he
                rw [← he, hl] at hnone
                cases hnone
          | num n =>
              refine ⟨⟨fun h => by simp [ChargeResult.isSuccess] at h, ?_⟩, ?_⟩
              · rintro ⟨resp2, fs, heq, _, hload⟩
                injection heq with he
                rw [← he, hl] at hload
                cases hload
              · intro resp2 heq _ hnone
                injection heq with he
                rw [← he, hl] at hnone
                cases hnone
          | fnum a b c d =>
              refine ⟨⟨fun h => by simp [ChargeResult.isSuccess] at h, ?_⟩, ?_⟩
              · rintro ⟨resp2, fs, heq, _, hload⟩
                injection heq with he
                rw [← he, hl] at hload
                cases hload
              · intro resp2 heq _ hnone
                injection heq with he
                rw [← he, hl] at hnone
                cases hnone
          | str s =>
              refine ⟨⟨fun h => by simp [ChargeResult.isSuccess] at h, ?_⟩, ?_⟩
              · rintro ⟨resp2, fs, heq, _, hload⟩
                injection heq with he
                rw [← he, hl] at hload
                cases hload
              · intro resp2 heq _ hnone
                injection heq with he
                rw [← he, hl] at hnone
                cases hnone
          | arr xs =>
              refine ⟨⟨fun h => by simp [ChargeResult.isSuccess] at h, ?_⟩, ?_⟩
              · rintro ⟨resp2, fs, heq, _, hload⟩
                injection heq with he
                rw [← he, hl] at hload
                cases hload
              · intro resp2 heq _ hnone
                injection heq with he
                rw [← he, hl] at hnone
                cases hnone
      · rw [if_neg hs]
        constructor
        · constructor
          · intro h
            simp [ChargeResult.isSuccess] at h
          · rintro ⟨resp2, fs, heq, h200, _⟩
            injection heq with he
            rw [← he] at h200
            exact absurd h200 hs
        · intro resp2 heq h200
          injection heq with he
          rw [← he] at h200
          exact absurd h200 hs

/-- Witness for C10 (amended) at a 200 response with unparseable body
(`Expecting value: line 1 column 1 (char 0)` is CPython's message for the
body `"nope"`). -/
theorem charge_token_json_outcomes_witness :
    ("k" : String) ≠ "" ∧
    chargeTokenTool (some "k") (Except.ok ⟨200, "nope"⟩)
        "Expecting value: line 1 column 1 (char 0)" =
      Json.dumps2 (Json.obj [("error", Json.str ("Request failed: " ++
          "Expecting value: line 1 column 1 (char 0)")),
        ("success", Json.bool false)]) :=
  ⟨by decide,
    (charge_token_json_outcomes "k" (by decide) (Except.ok ⟨200, "nope"⟩)
        "Expecting value: line 1 column 1 (char 0)").2
      ⟨200, "nope"⟩ rfl rfl rfl⟩
